import Mathlib

/-!
Verification development for the AVIENTER 2-D model-rocket simulator.

Shallow embedding of the flight-physics engine
(src/components/rocket/RocketPhysics.jsx, RocketConstants and
RocketLandingPrediction.jsx) over the real numbers.  JavaScript doubles are
modelled as exact reals: every value is finite, so the source's
isFinite/isNaN guards are dead branches over this domain and are noted in
comments where they occur.  Where the source's behaviour on *missing*
(undefined) fields matters, the value domain is widened to Option ℝ with
none standing for undefined/NaN.
-/

set_option autoImplicit false

noncomputable section

open scoped Classical

/-- mmToM from RocketConstants: millimetres to metres. -/
def mmToM (mm : ℝ) : ℝ := mm / 1000

/-- gToKg from RocketConstants: grams to kilograms. -/
def gToKg (g : ℝ) : ℝ := g / 1000

/-- PHYSICAL_CONSTANTS.launchRailLength (m). -/
def launchRailLengthC : ℝ := 0.65

/-- ANGLE_RESPONSE_DT from RocketConstants (s). -/
def angleResponseDt : ℝ := 0.2

/-- ANGLE_STEPS_PER_UPDATE from RocketConstants. -/
def angleStepsPerUpdate : ℕ := 10

/-- Integration step dt = 0.02 s (literal in calculateFlightPath). -/
def dtC : ℝ := 0.02

/-- Nose shapes (NOSE_SHAPES keys). -/
inductive NoseShape where
  | cone
  | parabola
  | ogive
deriving DecidableEq, Repr

/-- NOSE_SHAPES drag coefficients. -/
def noseShapeCd : NoseShape → ℝ
  | .cone => 0.83
  | .parabola => 0.7
  | .ogive => 0.61

/-- Fin materials (FIN_MATERIALS keys).  The RocketDesign data model declares
the material an enum, so the lookup is total here; an unknown string key in
the source would make the lookup return undefined and dereferencing it throw. -/
inductive FinMat where
  | light_balsa
  | balsa
  | light_veneer
deriving DecidableEq, Repr

/-- FIN_MATERIALS E (Young's modulus, Pa). -/
def finMatE : FinMat → ℝ
  | .light_balsa => 2450000000
  | .balsa => 3000000000
  | .light_veneer => 8000000000

/-- FIN_MATERIALS G (shear modulus, Pa). -/
def finMatG : FinMat → ℝ
  | .light_balsa => 85750000
  | .balsa => 120000000
  | .light_veneer => 450000000

/-- FIN_MATERIALS MD (material density, kg/m^3). -/
def finMatMD : FinMat → ℝ
  | .light_balsa => 60
  | .balsa => 125
  | .light_veneer => 500

/-- Wind profiles (WIND_PROFILES keys). -/
inductive WindProfile where
  | uniform
  | openSea
  | farmland
  | suburban
  | urban
deriving DecidableEq, Repr

/-- WIND_PROFILES alpha: terrain power-law exponent. -/
def windProfileAlpha : WindProfile → ℝ
  | .uniform => 0
  | .openSea => 0.12
  | .farmland => 0.2
  | .suburban => 0.3
  | .urban => 0.4

/-- MOTOR_THRUST_DATA lookup: thrust sample per 0.02 s tick (N).
An unknown motor id in the source yields undefined and the engine would
throw on .length; the empty-list default is never taken for the three ids. -/
def motorThrustData (m : String) : List ℝ :=
  if m = "1/2A6-2" then
    [0.000,0.445,0.891,1.336,1.782,2.227,2.673,3.118,3.564,4.009,4.455,3.345,
     2.236,2.012,1.789,1.565,1.341,1.118,1.118,1.118,1.118,1.118,1.118,1.118,
     1.118,1.118,1.118,1.118,1.118,1.118,0.894,0.671,0.447,0.224]
  else if m = "A8-3" then
    [0.000,0.891,1.782,2.673,3.564,4.455,5.345,6.236,7.127,8.018,8.909,9.800,
     6.900,4.000,3.600,3.200,2.800,2.400,2.400,2.400,2.400,2.400,2.400,2.400,
     2.400,2.400,2.400,2.400,2.400,2.400,2.400,2.400,2.400,1.600,0.800]
  else if m = "B6-4" then
    [0.000,1.782,3.564,5.345,7.127,8.909,10.691,12.473,14.255,16.036,17.818,
     19.600,13.800,8.000,7.200,6.400,5.600,4.800,4.800,4.800,4.800,4.800,4.800,
     4.800,4.800,4.800,4.800,4.800,4.800,4.800,4.800,3.200,1.600]
  else []

/-- The characters after the first '-' (the three motor ids contain exactly
one dash, so this is split('-')[1]). -/
def afterDash : List Char → List Char
  | [] => []
  | c :: t => if c = '-' then t else afterDash t

/-- JavaScript parseInt on a character list: consume leading decimal digits,
accumulating their value (NaN-on-no-digit is irrelevant here: every motor
suffix and parachute id carries digits). -/
def digitsVal : List Char → ℕ → ℕ
  | [], acc => acc
  | c :: t, acc => if c.isDigit then digitsVal t (acc * 10 + (c.toNat - 48)) else acc

/-- parseInt(selectedMotor.split('-')[1]): the parachute ejection delay (s)
embedded in the motor designation suffix. -/
def jsMotorDelay (m : String) : ℝ := (digitsVal (afterDash m.toList) 0 : ℕ)

/-- parseInt(selectedParachute.slice(1)): parachute diameter in mm
(the leading φ character is dropped). -/
def jsParachuteMm (s : String) : ℝ := (digitsVal (s.toList.drop 1) 0 : ℕ)

/-- calculateWindSpeedAtHeight from RocketPhysics: power-law wind profile
with reference height 1.5 m and a 3x amplification cap. -/
def calculateWindSpeedAtHeight (baseWindSpeed height : ℝ) (profile : WindProfile) : ℝ :=
  if height ≤ 0 then baseWindSpeed
  else
    let alpha := windProfileAlpha profile
    if alpha = 0 then baseWindSpeed
    else
      let referenceHeight : ℝ := 1.5
      let heightRat := height / referenceHeight
      let windSpeedMultiplier := heightRat ^ alpha
      let maxMultiplier : ℝ := 3.0
      let actualMultiplier := min windSpeedMultiplier maxMultiplier
      baseWindSpeed * actualMultiplier

/-- Result object of calculateProjectedArea. -/
structure Areas where
  frontalArea : ℝ
  sideArea : ℝ
  noseArea : ℝ
  finArea : ℝ
  totalFinArea : ℝ
  angledArea : ℝ


/-- The all-zero Areas object returned by calculateProjectedArea's input
guards (the source literal omits noseArea, leaving it undefined; it is 0
here, which only strengthens the "all-zero" reading). -/
def zeroAreas : Areas :=
  { frontalArea := 0, sideArea := 0, noseArea := 0, finArea := 0
    totalFinArea := 0, angledArea := 0 }

/-- Numeric core of calculateProjectedArea (the code after the input guards),
arguments in mm exactly as in the source. -/
def calcProjectedAreaCore (noseShape : NoseShape)
    (noseHeight bodyHeight bodyWidth finHeight finBaseWidth finTipWidth
     finThickness finSweepLength finCount : ℝ) : Areas :=
  let noseHeight_m := mmToM noseHeight
  let bodyHeight_m := mmToM bodyHeight
  let bodyWidth_m := mmToM bodyWidth
  let bodyRadius_m := bodyWidth_m / 2
  let finHeight_m := mmToM finHeight
  let finBaseWidth_m := mmToM finBaseWidth
  let finTipWidth_m := mmToM finTipWidth
  let frontalArea := Real.pi * bodyRadius_m ^ 2 + (finHeight * finThickness) * 4 * 0.0000001
  let bodyArea := bodyWidth_m * bodyHeight_m
  let noseArea :=
    if noseShape = NoseShape.cone then 0.5 * bodyWidth_m * noseHeight_m
    else (2 / 3) * bodyWidth_m * noseHeight_m
  let finArea :=
    if finCount = 3 then
      let adjustedFinHeight := finHeight_m * 1.73 / 2
      let overlapFinBaseWidth :=
        if finSweepLength + finTipWidth ≥ finBaseWidth then
          (((finTipWidth_m - finBaseWidth_m) * finBaseWidth_m * 0.078 / finHeight_m)
            + finBaseWidth_m) - finTipWidth_m * bodyWidth_m * 0.078 / finHeight_m
        else
          ((finTipWidth_m - finBaseWidth_m) * finBaseWidth_m * 0.078 / finHeight_m)
            + finBaseWidth_m
      (adjustedFinHeight * (finBaseWidth_m + finTipWidth_m) / 2)
        - ((overlapFinBaseWidth + finBaseWidth_m)
            * ((bodyWidth_m / 2) - bodyWidth_m * 1.73 / 4) / 2)
    else
      finHeight_m * (finBaseWidth_m + finTipWidth_m) / 2
  let totalFinArea := finArea * 2
  let sideArea := bodyArea + noseArea + totalFinArea
  let angledArea := Real.sqrt (frontalArea ^ 2 + sideArea ^ 2)
  { frontalArea := frontalArea, sideArea := sideArea, noseArea := noseArea
    finArea := finArea, totalFinArea := totalFinArea, angledArea := angledArea }

/-- RocketDesign with the data-model invariants already enforced by the UI
layer (numeric fields present, material an enum).  finCount is a JS number
(compared with === 3 throughout), hence ℝ here.  finCp is written by
calculateFlightPath before any read (the source mutates rocketParams). -/
structure RocketParams where
  noseShape : NoseShape
  noseHeight : ℝ
  bodyHeight : ℝ
  bodyWidth : ℝ
  finHeight : ℝ
  finBaseWidth : ℝ
  finTipWidth : ℝ
  finThickness : ℝ
  finSweepLength : ℝ
  finMaterial : FinMat
  finCount : ℝ
  weight : ℝ
  centerOfGravity : ℝ
  selectedMotor : String
  selectedParachute : String
  finCp : ℝ

/-- calculateProjectedArea on a well-typed RocketDesign (guards pass). -/
def calculateProjectedArea (p : RocketParams) : Areas :=
  calcProjectedAreaCore p.noseShape p.noseHeight p.bodyHeight p.bodyWidth
    p.finHeight p.finBaseWidth p.finTipWidth p.finThickness p.finSweepLength
    p.finCount

/-- A raw (possibly malformed) parameter object: each numeric geometry field
is Option ℝ, none standing for a missing / non-number field (the source's
typeof checks).  finCount has a destructuring default of 3. -/
structure RawParams where
  noseShape : NoseShape
  noseHeight : Option ℝ
  bodyHeight : Option ℝ
  bodyWidth : Option ℝ
  finHeight : Option ℝ
  finBaseWidth : Option ℝ
  finTipWidth : Option ℝ
  finThickness : Option ℝ
  finSweepLength : Option ℝ
  finCount : Option ℝ

/-- calculateProjectedArea including its entry guard: the source checks that
the eight numeric geometry fields are numbers and returns the all-zero
result object if any is missing (noseShape and finCount are not checked;
finCount defaults to 3).  In the else branch every field is some, so the
getD defaults are never taken. -/
def calculateProjectedAreaRaw (p : RawParams) : Areas :=
  if p.noseHeight = none ∨ p.bodyHeight = none ∨ p.bodyWidth = none ∨
      p.finHeight = none ∨ p.finBaseWidth = none ∨ p.finTipWidth = none ∨
      p.finThickness = none ∨ p.finSweepLength = none then
    zeroAreas
  else
    calcProjectedAreaCore p.noseShape (p.noseHeight.getD 0) (p.bodyHeight.getD 0)
      (p.bodyWidth.getD 0) (p.finHeight.getD 0) (p.finBaseWidth.getD 0)
      (p.finTipWidth.getD 0) (p.finThickness.getD 0) (p.finSweepLength.getD 0)
      (p.finCount.getD 3)

/-- Result object of calculateVolume. -/
structure Volumes where
  bodyVolume : ℝ
  noseVolume : ℝ
  totalVolume : ℝ


/-- calculateVolume from RocketPhysics (no input guard in the source). -/
def calculateVolume (p : RocketParams) : Volumes :=
  let noseHeight_m := mmToM p.noseHeight
  let bodyHeight_m := mmToM p.bodyHeight
  let bodyRadius_m := mmToM p.bodyWidth / 2
  let bodyVolume := Real.pi * bodyRadius_m ^ 2 * bodyHeight_m
  let noseVolume :=
    if p.noseShape = NoseShape.cone then
      (1 / 3) * Real.pi * bodyRadius_m ^ 2 * noseHeight_m
    else if p.noseShape = NoseShape.parabola then
      (1 / 2) * Real.pi * bodyRadius_m ^ 2 * noseHeight_m
    else
      (2 / 3) * Real.pi * bodyRadius_m ^ 2 * noseHeight_m
  { bodyVolume := bodyVolume, noseVolume := noseVolume
    totalVolume := bodyVolume + noseVolume }

/-- JS multiplication over possibly-NaN values: none is NaN/undefined and
propagates (NaN * x = NaN, undefined coerces to NaN). -/
def jsMulO (a b : Option ℝ) : Option ℝ := Option.map₂ (· * ·) a b

/-- JS addition over possibly-NaN values. -/
def jsAddO (a b : Option ℝ) : Option ℝ := Option.map₂ (· + ·) a b

/-- Volumes over the NaN-propagating domain. -/
structure OptVolumes where
  bodyVolume : Option ℝ
  noseVolume : Option ℝ
  totalVolume : Option ℝ

/-- calculateVolume applied to a raw parameter object.  The source has no
input guard here: a missing field flows through mmToM and the arithmetic as
NaN (undefined / 1000 = NaN), so the result fields are NaN, not zero.
Math.pow(NaN, 2) = NaN, matching the propagation of none. -/
def calculateVolumeRaw (p : RawParams) : OptVolumes :=
  let noseHeight_m := p.noseHeight.map mmToM
  let bodyHeight_m := p.bodyHeight.map mmToM
  let bodyRadius_m := p.bodyWidth.map (fun w => mmToM w / 2)
  let bodyVolume := jsMulO (jsMulO (some Real.pi) (bodyRadius_m.map (· ^ 2))) bodyHeight_m
  let noseVolume :=
    if p.noseShape = NoseShape.cone then
      jsMulO (jsMulO (jsMulO (some (1 / 3)) (some Real.pi)) (bodyRadius_m.map (· ^ 2))) noseHeight_m
    else if p.noseShape = NoseShape.parabola then
      jsMulO (jsMulO (jsMulO (some (1 / 2)) (some Real.pi)) (bodyRadius_m.map (· ^ 2))) noseHeight_m
    else
      jsMulO (jsMulO (jsMulO (some (2 / 3)) (some Real.pi)) (bodyRadius_m.map (· ^ 2))) noseHeight_m
  { bodyVolume := bodyVolume, noseVolume := noseVolume
    totalVolume := jsAddO bodyVolume noseVolume }

/-- The all-zero volume object that claim C7 asserts is returned for
malformed inputs. -/
def zeroOptVolumes : OptVolumes :=
  { bodyVolume := some 0, noseVolume := some 0, totalVolume := some 0 }

/-- Result object of calculateCenterOfPressure (positions in mm from the
nose tip). -/
structure CpData where
  noseCp : ℝ
  bodyCp : ℝ
  finCp : ℝ
  centerOfPressure : ℝ
  foreBodyCp : ℝ

/-- calculateCenterOfPressure from RocketPhysics. -/
def calculateCenterOfPressure (p : RocketParams) : CpData :=
  let areas := calculateProjectedArea p
  let noseCp :=
    if p.noseShape = NoseShape.cone then p.noseHeight * 0.666
    else if p.noseShape = NoseShape.parabola then p.noseHeight * 0.614
    else p.noseHeight * 0.575
  let bodyCp := p.noseHeight + p.bodyHeight / 2
  let finArea_section1 :=
    if p.finCount = 3 then (p.finBaseWidth * p.finHeight * 1.732 * 0.5) / 2
    else (p.finBaseWidth * p.finHeight) / 2
  let finArea_section2 :=
    if p.finCount = 3 then (p.finTipWidth * p.finHeight * 1.732 * 0.5) / 2
    else (p.finTipWidth * p.finHeight) / 2
  let finCP_y_section1 := (p.finBaseWidth + p.finSweepLength) / 3
  let finCP_y_section2 :=
    (p.finBaseWidth + p.finSweepLength + (p.finSweepLength + p.finTipWidth)) / 3
  let finSection_single :=
    if p.finCount = 3 then
      (p.finBaseWidth + p.finTipWidth) * (p.finHeight * (1.732 / 2)) / 2
    else (p.finBaseWidth + p.finTipWidth) * p.finHeight / 2
  let finCP_single :=
    ((finCP_y_section1 * finArea_section1) + (finCP_y_section2 * finArea_section2))
      / finSection_single
  let finCp := p.noseHeight + p.bodyHeight - p.finBaseWidth + finCP_single
  let noseArea := areas.noseArea * 1000000
  let bodyArea := areas.sideArea * 1000000 - noseArea - areas.totalFinArea * 1000000
  let totalFinArea := areas.totalFinArea * 1000000
  let totalArea := noseArea + bodyArea + totalFinArea
  let centerOfPressure :=
    (noseCp * noseArea + bodyCp * bodyArea + finCp * totalFinArea) / totalArea
  let foreBodyArea := noseArea + bodyArea
  let foreBodyCp := (noseCp * noseArea + bodyCp * bodyArea) / foreBodyArea
  { noseCp := noseCp, bodyCp := bodyCp, finCp := finCp
    centerOfPressure := centerOfPressure, foreBodyCp := foreBodyCp }

/-- Result object of calculateAerodynamicCenter (mm from nose tip). -/
structure AcData where
  aerodynamicCenter : ℝ

/-- calculateAerodynamicCenter from RocketPhysics (Barrowman-style, with
3-fin and 4-fin planform branches). -/
def calculateAerodynamicCenter (p : RocketParams) : AcData :=
  let lengthOfCo :=
    if p.finCount = 3 then
      ((p.finBaseWidth - p.finTipWidth) / (p.finHeight * 1.732 / 2))
          * (((p.bodyWidth / 2) + p.finHeight) * (1.732 / 2)) + p.finTipWidth
    else
      ((p.finBaseWidth - p.finTipWidth) / p.finHeight)
          * ((p.bodyWidth / 2) + p.finHeight) + p.finTipWidth
  let ramda := p.finTipWidth / lengthOfCo
  let volumeData := calculateVolume p
  let c_bar := (2 * lengthOfCo / 3) * (1 + ramda + ramda ^ 2) / (1 + ramda)
  let y_bar :=
    if p.finCount = 3 then
      (((p.bodyWidth / 2) + p.finHeight) * (1.732 / 2)) * (1 + (2 * ramda))
        / (3 * (1 + ramda))
    else
      (p.finHeight + (p.bodyWidth / 2)) * (1 + (2 * ramda)) / (3 * (1 + ramda))
  let wingArea :=
    if p.finCount = 3 then
      (p.finTipWidth + lengthOfCo) * (((p.bodyWidth / 2) + p.finHeight) * (1.732 / 2))
    else
      (p.finTipWidth + lengthOfCo) * ((p.bodyWidth / 2) + p.finHeight)
  let vStarFus := volumeData.totalVolume * 1000000000 / (c_bar * wingArea)
  let aspectR :=
    if p.finCount = 3 then
      ((2 * ((p.bodyWidth / 2) + p.finHeight) * (1.732 / 2)))
        * (2 * (((p.bodyWidth / 2) + p.finHeight) * (1.732 / 2))) / wingArea
    else
      ((2 * (p.finHeight + p.bodyWidth)) * (2 * (p.finHeight + p.bodyWidth))) / wingArea
  let cl_alpha :=
    if p.finCount = 3 then
      ((3.14 * aspectR) * 0.5)
        * (1 - ((p.bodyWidth / 2) / (((p.finHeight + (p.bodyWidth / 2)) * 1.732 / 4))) ^ 2) ^ 2
    else
      ((3.14 * aspectR) * 0.5)
        * (1 - ((p.bodyWidth / 2) / (((p.finHeight + (p.bodyWidth / 2)) / 2))) ^ 2) ^ 2
  let hn := 0.25 + (1 / cl_alpha) * (-1) * (2 * vStarFus)
  let hnwc_bar := hn * c_bar
  let x1 :=
    if p.finCount = 3 then
      (p.bodyWidth / 2) * (1.732 / 2) * p.finSweepLength / (p.finHeight * 1.732 / 2)
    else
      (p.bodyWidth / 2) * p.finSweepLength / p.finHeight
  let x2 :=
    if p.finCount = 3 then
      y_bar * (x1 + p.finSweepLength + p.finTipWidth - lengthOfCo)
        / (((p.bodyWidth / 2) + p.finHeight) * 1.732 / 2)
    else
      y_bar * (x1 + p.finSweepLength + p.finTipWidth - lengthOfCo)
        / (((p.bodyWidth / 2) + p.finHeight))
  let small_xac := c_bar - x2 - hnwc_bar
  { aerodynamicCenter := p.noseHeight + p.bodyHeight - small_xac }

/-- Result object of calculateStabilityCenterOfPressure (mm). -/
structure StabCpData where
  stabilityCenterOfPressure : ℝ

/-- calculateStabilityCenterOfPressure from RocketPhysics (normal-force
coefficient model, used only for the stability margin figure). -/
def calculateStabilityCenterOfPressure (p : RocketParams) : StabCpData :=
  let mc := Real.sqrt ((p.finSweepLength + (p.finTipWidth / 2) - (p.finBaseWidth / 2)) ^ 2
      + p.finHeight ^ 2)
  let noseStabilityCp :=
    if p.noseShape = NoseShape.cone then p.noseHeight * 0.666
    else if p.noseShape = NoseShape.parabola then p.noseHeight * 0.614
    else p.noseHeight * 0.575
  let fin_cn_1 := 1 + (p.finHeight / (p.finHeight + (p.bodyWidth / 2)))
  let fin_cn_2 :=
    if p.finCount = 3 then 12 * (p.finHeight / p.bodyWidth) ^ 2
    else 16 * (p.finHeight / p.bodyWidth) ^ 2
  let fin_cn_3 := 1 + Real.sqrt (1 + ((2 * mc) / (p.finTipWidth + p.finBaseWidth)) ^ 2)
  let fin_cn := fin_cn_1 * fin_cn_2 / fin_cn_3
  let cnTotal := 2 + fin_cn
  let finStabilityCp := (p.noseHeight + p.bodyHeight - p.finBaseWidth)
      + ((p.finSweepLength / 3)
          * ((p.finBaseWidth + 2 * p.finTipWidth) / (p.finBaseWidth + p.finTipWidth)))
      + ((p.finBaseWidth + p.finTipWidth)
          - ((p.finBaseWidth * p.finTipWidth) / (p.finBaseWidth + p.finTipWidth))) / 6
  { stabilityCenterOfPressure :=
      (2 * noseStabilityCp + fin_cn * finStabilityCp) / cnTotal }

/-- Result object of calculateStaticMargin. -/
structure Margins where
  standardStaticMargin : ℝ
  stabilityStaticMargin : ℝ

/-- calculateStaticMargin from RocketPhysics: (CP - CG) / body diameter,
once per CP notion. -/
def calculateStaticMargin (p : RocketParams) : Margins :=
  let cpData := calculateCenterOfPressure p
  let stabilityCp := calculateStabilityCenterOfPressure p
  { standardStaticMargin := (cpData.centerOfPressure - p.centerOfGravity) / p.bodyWidth
    stabilityStaticMargin :=
      (stabilityCp.stabilityCenterOfPressure - p.centerOfGravity) / p.bodyWidth }

/-- calculateFinDivergenceSpeed from RocketPhysics.  Math.pow(x, 0.5) is
Real.sqrt (the radicand is nonnegative for the enum materials since
cos(atan _) > 0; a negative radicand would be NaN in JS). -/
def calculateFinDivergenceSpeed (p : RocketParams) : ℝ :=
  let finHeight_m := mmToM p.finHeight
  let finBaseWidth_m := mmToM p.finBaseWidth
  let finTipWidth_m := mmToM p.finTipWidth
  let finSweepLength_m := mmToM p.finSweepLength
  let finThickness_m := mmToM p.finThickness
  let g := finMatG p.finMaterial
  let rho : ℝ := 1.225
  let meanChord := (finBaseWidth_m + finTipWidth_m) / 2
  let sweepbackAngle :=
    Real.arctan ((finSweepLength_m + 0.5 * finTipWidth_m - 0.5 * finBaseWidth_m)
        * 3.14 / meanChord)
  let j := 0.3333 * finTipWidth_m * finThickness_m ^ 3
  let liftCoefficient_fin := (9 / 3.14) * Real.cos sweepbackAngle
  let divSpeed := (3.14 / (2 * finHeight_m))
      * Real.sqrt (2 * g * j / (rho * meanChord ^ 2 * 0.25 * liftCoefficient_fin))
  max 20 (min 300 divSpeed)

/-- calculateFinFlutterSpeed from RocketPhysics. -/
def calculateFinFlutterSpeed (p : RocketParams) : ℝ :=
  let finHeight_m := mmToM p.finHeight
  let finBaseWidth_m := mmToM p.finBaseWidth
  let finTipWidth_m := mmToM p.finTipWidth
  let finThickness_m := mmToM p.finThickness
  let g := finMatG p.finMaterial
  let torsionConstant := 0.333 * finThickness_m * finTipWidth_m ^ 3
  let torsionalStiffness := g * torsionConstant
  let epsilon : ℝ := 0.25
  let airDensity : ℝ := 1.225
  let finSection_single := (finTipWidth_m + finBaseWidth_m) * finHeight_m * 0.5
  let half_finTipWidth := finTipWidth_m / 2
  let liftSlope : ℝ := 3.44
  let flutterSpeed := Real.sqrt ((2 * torsionalStiffness)
      / (epsilon * airDensity * finSection_single * half_finTipWidth * liftSlope))
  max 30 (min 400 flutterSpeed)

/-- calculateFinDeflection from RocketPhysics (cantilever-beam bending model;
called with the fin fields of rocketParams and material E).  Notes on the
source: Number(finThickness) || 2.0 falls back to 2.0 when the thickness is
0 (falsy); the local I with its 1e-12 floor is computed but unused by the
final formula; the NaN check and the catch handler (both returning 15) are
dead over ℝ; the angleChangePerDt2 argument is unused by the body. -/
def calculateFinDeflection (velocity eMod : ℝ) (p : RocketParams)
    (_angleChangePerDt2 : ℝ) : ℝ :=
  if |velocity| < 0.001 then 0
  else
    let safeFinThickness := if p.finThickness = 0 then 2.0 else p.finThickness
    let safeVelocity := min velocity 300
    let finArea := ((p.finBaseWidth + p.finTipWidth) * 0.001) * (p.finHeight * 0.001) / 2
    let taper :=
      if p.finHeight > 0 then
        max (-0.9) (min 0.9
          (((p.finBaseWidth * 0.001) - (p.finTipWidth * 0.001)) / (p.finHeight * 0.001)))
      else 0
    let sweepAngle := Real.arctan ((p.finSweepLength * 0.001 + 0.5 * p.finTipWidth * 0.001
        - 0.5 * p.finBaseWidth * 0.001) * Real.pi / (p.finHeight * 0.001))
    let meanChord := (p.finBaseWidth + p.finTipWidth) * 0.001 / 2
    let _i := max ((meanChord * (safeFinThickness * 0.001) ^ 3) / 12) 1e-12
    let dragCoefficient : ℝ := 1.28
    let airDensity : ℝ := 1.225
    let windForce := 0.5 * airDensity * safeVelocity * safeVelocity * dragCoefficient * finArea
    let unitLengthWindForce := windForce / max 0.001 (p.finHeight * 0.001)
    let deflectionFactor := 1 / (1 - taper)
    let secondMomentOfArea := ((p.finBaseWidth + p.finTipWidth) * 0.001)
        * (p.finThickness * 0.001) ^ 3 / (2 * 12)
    let rawDeflection := (unitLengthWindForce * (p.finHeight * 0.001) ^ 4
        * Real.cos sweepAngle / (8 * eMod * secondMomentOfArea)) * deflectionFactor
    let deflectionMm := rawDeflection * 1000
    if |deflectionMm| > 15 then 15
    else if |deflectionMm| < 0.01 then deflectionMm
    else max 0.01 |deflectionMm|

/-- JS Math.atan2(y, x): principal-branch two-argument arctangent, with
atan2(0, 0) = 0 as in JavaScript (signed zeros are not distinguished over ℝ). -/
def jsAtan2 (y x : ℝ) : ℝ :=
  if x > 0 then Real.arctan (y / x)
  else if x < 0 then
    (if y ≥ 0 then Real.arctan (y / x) + Real.pi else Real.arctan (y / x) - Real.pi)
  else
    (if y > 0 then Real.pi / 2 else if y < 0 then -(Real.pi / 2) else 0)

/-- Truncation toward zero, as a real (JS number-to-integer truncation). -/
def jsTrunc (x : ℝ) : ℝ := if 0 ≤ x then (⌊x⌋ : ℝ) else (⌈x⌉ : ℝ)

/-- JS remainder a % b for b > 0: same sign as the dividend. -/
def jsRem (a b : ℝ) : ℝ := a - b * jsTrunc (a / b)

/-- JS Math.sign over the reals. -/
def jsSign (x : ℝ) : ℝ := if x > 0 then 1 else if x < 0 then -1 else 0

/-- calculateLiftMoment from RocketPhysics.  Velocity² is capped at 10000;
the trailing isFinite/isNaN guard (returning 0) is dead over ℝ.  The
rocketParams argument is accepted but unused, exactly as in the source. -/
def calculateLiftMoment (velocity omega flightAngle : ℝ) (_params : RocketParams)
    (sideArea aerodynamicCenter centerOfGravity : ℝ) : ℝ :=
  let centerOfGravity_m := mmToM centerOfGravity
  let aerodynamicCenter_m := mmToM aerodynamicCenter
  let velocitySquared := min (velocity * velocity) 10000
  let angleOfAttack := omega - flightAngle
  let liftCoefficient := 0.6 * angleOfAttack
  let momentMagnitude := |liftCoefficient * 0.5 * 1.225 * velocitySquared * sideArea
      * (aerodynamicCenter_m - centerOfGravity_m)|
  if (aerodynamicCenter ≥ centerOfGravity ∧ angleOfAttack < 0)
      ∨ (aerodynamicCenter < centerOfGravity ∧ angleOfAttack ≥ 0) then
    momentMagnitude
  else
    -momentMagnitude

/-- calculateDragMoment from RocketPhysics.  The bodyDiameter parameter keeps
its source name; note the call sites actually pass the side projected area
into it.  Velocity² is capped at 10000; the isFinite guard is dead over ℝ. -/
def calculateDragMoment (velocity omega flightAngle : ℝ) (_params : RocketParams)
    (bodyDiameter aerodynamicCenter centerOfGravity : ℝ) : ℝ :=
  let centerOfGravity_m := mmToM centerOfGravity
  let aerodynamicCenter_m := mmToM aerodynamicCenter
  let velocitySquared := min (velocity * velocity) 10000
  let angleOfAttack := omega - flightAngle
  let dragCoefficient := 0.01 * angleOfAttack ^ 2 - 0.02 * angleOfAttack + 0.63
  let momentMagnitude := |dragCoefficient * 0.5 * 1.225 * velocitySquared
      * (bodyDiameter * 0.001 / 2) * (bodyDiameter * 0.001 / 2) * 3.14
      * (aerodynamicCenter_m - centerOfGravity_m)|
  if (aerodynamicCenter ≥ centerOfGravity ∧ angleOfAttack < 0)
      ∨ (aerodynamicCenter < centerOfGravity ∧ angleOfAttack ≥ 0) then
    momentMagnitude
  else
    -momentMagnitude

/-- calculateWindMoment from RocketPhysics.  Wind speed is capped to
±25 m/s (the sign decision still reads the raw windSpeed); the null guards
on centerOfPressure/centerOfGravity return 0; the null/NaN defaulting of
windSpeed and omega and the final isFinite check are dead over ℝ. -/
def calculateWindMoment (noseHeight bodyDiameter bodyHeight windSpeed omega
    totalFinArea : ℝ) (centerOfPressure centerOfGravity : Option ℝ) : ℝ :=
  match centerOfPressure, centerOfGravity with
  | some centerOfPressure, some centerOfGravity =>
    let centerOfGravity_m := mmToM centerOfGravity
    let centerOfPressure_m := mmToM centerOfPressure
    let bodyHeight_m := mmToM bodyHeight
    let noseHeight_m := mmToM noseHeight
    let safeWindSpeed := max (-25) (min 25 windSpeed)
    let dwf := 1.28 * 0.05 * safeWindSpeed ^ 2 * totalFinArea
    let dwb := 0.23 * 0.5 * 1.225 * safeWindSpeed ^ 2 * bodyDiameter
        * (bodyHeight_m + noseHeight_m)
    let cosAngle := Real.cos omega
    let momentMagnitude := |(dwf + dwb) * cosAngle * (centerOfPressure_m - centerOfGravity_m)|
    if (centerOfPressure ≥ centerOfGravity ∧ windSpeed < 0)
        ∨ (centerOfPressure < centerOfGravity ∧ windSpeed ≥ 0) then
      -momentMagnitude
    else
      momentMagnitude
  | _, _ => 0

/-- calculateFinMoment from RocketPhysics, 14 parameters in source order.
omega and flightAngle default to 0 when null/NaN (none); a null/undefined
centerOfGravity returns 0 before anything else is touched — this is the
guard the simulation loop's 8-argument call always hits.  The parameters
that can arrive undefined from that call are Option-typed; their getD 0
defaults are unreachable because of the centerOfGravity guard (a defined
direct call supplies all of them).  finMaterial is accepted but unused, as
in the source.  No velocity cap and no finiteness guard exist here. -/
def calculateFinMoment (finHeight finBaseWidth finSweepLength finTipWidth
    finCount velocity : ℝ) (omega flightAngle : Option ℝ)
    (_finMaterial : Option FinMat) (finCp noseHeight bodyHeight bodyWidth : Option ℝ)
    (centerOfGravity : Option ℝ) : ℝ :=
  let omega := omega.getD 0
  let flightAngle := flightAngle.getD 0
  match centerOfGravity with
  | none => 0
  | some centerOfGravity =>
    let finCp := finCp.getD 0
    let noseHeight := noseHeight.getD 0
    let bodyHeight := bodyHeight.getD 0
    let bodyWidth := bodyWidth.getD 0
    let centerOfGravity_m := mmToM centerOfGravity
    let finCp_m := mmToM finCp
    let rho : ℝ := 1.225
    let finHeight_m := mmToM finHeight
    let finSweepLength_m := mmToM finSweepLength
    let finTipWidth_m := mmToM finTipWidth
    let finArea := ((finBaseWidth + finTipWidth) * 0.001) * (finHeight * 0.001) / 2
    let angleOfAttack := omega - flightAngle
    let finLeanArea :=
      if finCount = 3 then
        |finHeight_m * (1.732 / 2) * (finSweepLength_m + finTipWidth_m)
          * Real.sin angleOfAttack * finArea
          / ((finSweepLength_m + finTipWidth_m) * finHeight_m)|
      else
        |finHeight_m * (finSweepLength_m + finTipWidth_m) * Real.sin angleOfAttack
          * finArea / ((finSweepLength_m + finTipWidth_m) * finHeight_m)|
    let totalLeanFinArea := finLeanArea * 2
    let cd := 0.3 / (5 * 3.14 / 180) * angleOfAttack
    let dragOfLeanFin := cd * 0.5 * rho * velocity * velocity * totalLeanFinArea
    let momentArm := mmToM |finCp_m - centerOfGravity_m|
    let noseHeight_m := mmToM noseHeight
    let bodyHeight_m := mmToM bodyHeight
    let bodyWidth_m := mmToM bodyWidth
    let noseBodyArea := bodyWidth_m * (noseHeight_m + bodyHeight_m)
    let momentArm_b := mmToM |((noseHeight_m + bodyHeight_m) / 2) - centerOfGravity_m|
    let dragOfLeanNoseBody := cd * 0.5 * rho * velocity * velocity * noseBodyArea
    let momentMagnitude := |((dragOfLeanFin * momentArm) + (dragOfLeanNoseBody * momentArm_b))
        * jsSign angleOfAttack|
    if (finCp_m ≥ centerOfGravity ∧ angleOfAttack < 0)
        ∨ (finCp_m < centerOfGravity ∧ angleOfAttack ≥ 0) then
      -momentMagnitude
    else
      momentMagnitude

/-- calculateThrustMoment from RocketPhysics (defined in the source but
never called by the simulation loop; embedded for completeness). -/
def calculateThrustMoment (thrust centerOfGravity omega flightAngle : ℝ)
    (p : RocketParams) : ℝ :=
  let angleOfAttack := omega - flightAngle
  let thrustPosition := p.noseHeight + p.bodyHeight
  let momentMagnitude := |thrust * Real.sin angleOfAttack * Real.cos angleOfAttack
      * (thrustPosition - centerOfGravity) * 0.001|
  let finalMoment :=
    if (thrustPosition ≥ centerOfGravity ∧ angleOfAttack < 0)
        ∨ (thrustPosition < centerOfGravity ∧ angleOfAttack ≥ 0) then
      momentMagnitude
    else
      -momentMagnitude
  let minMoment : ℝ := 0.00001
  if |finalMoment| > 0 ∧ |finalMoment| < minMoment then jsSign finalMoment * minMoment
  else finalMoment

/-- One keypoint entry: { time, height, speed }. -/
structure KP where
  time : ℝ
  height : ℝ
  speed : ℝ

/-- The zero keypoint used at initialisation. -/
def kp0 : KP := { time := 0, height := 0, speed := 0 }

/-- The keyPoints record of calculateFlightPath. -/
structure KeyPoints where
  thrustEnd : KP
  precMaxHeight : KP
  maxHeight : KP
  parachuteEjection : KP
  parachuteActive : KP

/-- One recorded FlightSample (data.push entry).  Display-only projections of
these fields (ax/ay, accelerationMagnitude, omegaDegrees,
angleDeviationDegrees, horizontalDistance = |physicsX|, isThrustActive,
absoluteAngleDegrees, the per-sample isAbsoluteAngleOK copy and the two
constant threshold fields, and physicsY which duplicates height) are omitted
from the embedding. -/
structure Sample where
  time : ℝ
  physicsX : ℝ
  height : ℝ
  vx : ℝ
  vy : ℝ
  speedMagnitude : ℝ
  omega : ℝ
  torque : ℝ
  angleChangePerDt2 : ℝ
  isParachuteEjected : Bool
  isParachuteActive : Bool
  parachuteDeploymentProgress : ℝ
  effectiveWindSpeed : ℝ
  finDeflection : ℝ

/-- The mutable simulation-loop state of calculateFlightPath.  The source's
angleChanges list and avgThrustForTorque / thrustSamplesCount accumulators
are write-only (never read back nor returned) and are omitted.  broken
models the break statement of the abnormal-torque guard. -/
structure SimState where
  time : ℝ
  x : ℝ
  y : ℝ
  vx : ℝ
  vy : ℝ
  omega : ℝ
  angularVelocity : ℝ
  angularAcceleration : ℝ
  prevOmega : ℝ
  data : List Sample
  isParachuteEjected : Bool
  isParachuteActive : Bool
  parachuteDeploymentProgress : ℝ
  maxAngleChangePerDt2 : ℝ
  isAngleStableOK : Bool
  isAbsoluteAngleOK : Bool
  thrustEndFlag : Bool
  angleChangeBuffer : List ℝ
  maxAbsoluteAngle : ℝ
  stepCounter : ℕ
  totalTorque : ℝ
  angleChangePerDt2 : ℝ
  isTorqueStableOK : Bool
  broken : Bool
  precMaxHeight : ℝ
  maxHeight : ℝ
  maxSpeed : ℝ
  maxDistance : ℝ
  maxFinDeflection : ℝ
  keyPoints : KeyPoints

/-- The two recognised configuration toggles. -/
structure SimConfig where
  enhancedAttitudeControl : Bool
  windAngleLimitation : Bool

/-- Per-run context: everything calculateFlightPath computes before entering
the simulation loop. -/
structure Ctx where
  params : RocketParams
  angle : ℝ
  windSpeed : ℝ
  windProfile : WindProfile
  cfg : SimConfig
  massKg : ℝ
  thrustData : List ℝ
  bodyDiameter : ℝ
  bodyLength : ℝ
  finwidthM : ℝ
  finThicknessM : ℝ
  momentOfInertia : ℝ
  noseCd : ℝ
  thrustEndTime : ℝ
  parachuteDelay : ℝ
  parachuteDeployTime : ℝ
  parachuteEjectionTime : ℝ
  parachuteActiveTime : ℝ
  parachuteDiameter : ℝ
  projectedAreas : Areas
  centerOfPressure : CpData
  aerodynamicCenter : AcData
  stabilityCenterOfPressure : StabCpData
  volumes : Volumes
  staticMargins : Margins

/-- The pre-loop section of calculateFlightPath.  Notes: the fin material for
the inertia and deflection models is hard-coded to light_veneer in the
source; the moment of inertia reads the *incoming* rocketParams.finCp
(read at source line 898, before the mutation at line 949 assigns the
computed fin CP), while the loop's moment calls read the mutated value —
both are reproduced here. -/
def mkCtx (p0 : RocketParams) (angle windSpeed : ℝ) (profile : WindProfile)
    (cfg : SimConfig) : Ctx :=
  let massKg := gToKg p0.weight
  let thrustData := motorThrustData p0.selectedMotor
  let bodyDiameter := mmToM p0.bodyWidth
  let bodyRadius := bodyDiameter / 2
  let bodyLength := mmToM (p0.bodyHeight + p0.noseHeight)
  let finBaseWidth_m := mmToM p0.finBaseWidth
  let finHeight_m := mmToM p0.finHeight
  let finTipWidth_m := mmToM p0.finTipWidth
  let finSweepLength_m := mmToM p0.finSweepLength
  let finThickness_m := mmToM p0.finThickness
  let finCp_m := mmToM p0.finCp
  let finMaterial := FinMat.light_veneer
  let finVol := (finTipWidth_m + finBaseWidth_m) * finHeight_m * 0.5 * finThickness_m
  let finMass := finVol * finMatMD finMaterial
  let fin_momentOfInertia :=
    if finSweepLength_m + finTipWidth_m > finBaseWidth_m then
      ((finBaseWidth_m + (finSweepLength_m + finTipWidth_m - finBaseWidth_m)) / 2) ^ 2
        * finMass / 3
    else
      (finBaseWidth_m / 2) ^ 2 * finMass / 3
  let momentOfInertia :=
    if p0.finCount = 3 then
      let cg_to_sideFincg := Real.sqrt
        ((((finTipWidth_m + (2 * finBaseWidth_m)) / (3 * (finTipWidth_m + finBaseWidth_m)))
            * (finHeight_m * 1.732 / 2)) ^ 2 + finCp_m ^ 2)
      0.25 * (massKg - finMass * 3) * bodyRadius * bodyRadius
        + 0.0833 * (massKg - finMass * 3) * bodyLength * bodyLength
        + ((fin_momentOfInertia + finMass * finCp_m ^ 2)
            + (fin_momentOfInertia + finMass * cg_to_sideFincg ^ 2) * 2)
    else
      let cg_to_sideFincg := Real.sqrt
        ((((finTipWidth_m + (2 * finBaseWidth_m)) / (3 * (finTipWidth_m + finBaseWidth_m)))
            * finHeight_m) ^ 2 + finCp_m ^ 2)
      0.25 * (massKg - finMass * 3) * bodyRadius * bodyRadius
        + 0.0833 * (massKg - finMass * 3) * bodyLength * bodyLength
        + ((fin_momentOfInertia + finMass * finCp_m ^ 2) * 2
            + (fin_momentOfInertia + finMass * cg_to_sideFincg ^ 2) * 2)
  let noseCd := noseShapeCd p0.noseShape
  let thrustEndTime := (thrustData.length : ℝ) * dtC
  let parachuteDelay := jsMotorDelay p0.selectedMotor
  let parachuteDeployTime : ℝ := 1.0
  let parachuteEjectionTime := thrustEndTime + parachuteDelay
  let parachuteActiveTime := parachuteEjectionTime + parachuteDeployTime
  let parachuteDiameter := mmToM (jsParachuteMm p0.selectedParachute)
  let projectedAreas := calculateProjectedArea p0
  let centerOfPressure := calculateCenterOfPressure p0
  let aerodynamicCenterV := calculateAerodynamicCenter p0
  let stabilityCpV := calculateStabilityCenterOfPressure p0
  let params := { p0 with finCp := centerOfPressure.finCp }
  let volumes := calculateVolume params
  let staticMargins := calculateStaticMargin params
  { params := params, angle := angle, windSpeed := windSpeed
    windProfile := profile, cfg := cfg, massKg := massKg
    thrustData := thrustData, bodyDiameter := bodyDiameter
    bodyLength := bodyLength, finwidthM := finHeight_m
    finThicknessM := finThickness_m, momentOfInertia := momentOfInertia
    noseCd := noseCd, thrustEndTime := thrustEndTime
    parachuteDelay := parachuteDelay, parachuteDeployTime := parachuteDeployTime
    parachuteEjectionTime := parachuteEjectionTime
    parachuteActiveTime := parachuteActiveTime
    parachuteDiameter := parachuteDiameter, projectedAreas := projectedAreas
    centerOfPressure := centerOfPressure, aerodynamicCenter := aerodynamicCenterV
    stabilityCenterOfPressure := stabilityCpV, volumes := volumes
    staticMargins := staticMargins }

/-- Outcome of the per-step parachute state update (the first block of the
loop body, source lines 1022-1041). -/
structure ParaOut where
  ejected : Bool
  active : Bool
  progress : ℝ
  vx : ℝ
  vy : ℝ
  kpEj : KP
  kpAct : KP

/-- Per-step parachute update: ejection triggers once time reaches
parachuteEjectionTime; while deploying, progress ramps as
(time - ejection) / parachuteDeployTime capped at 1; once time reaches
parachuteActiveTime the canopy is active, progress is forced to 1 and both
velocity components are multiplied by 0.1. -/
def paraUpdate (ctx : Ctx) (s : SimState) : ParaOut :=
  let triggerEj : Prop := ¬s.isParachuteEjected ∧ s.time ≥ ctx.parachuteEjectionTime
  let ejected : Bool := if triggerEj then true else s.isParachuteEjected
  let kpEj := if triggerEj then ({ time := s.time, height := s.y, speed := s.vy } : KP)
    else s.keyPoints.parachuteEjection
  let progress1 := if ejected ∧ ¬s.isParachuteActive then
      min 1 ((s.time - ctx.parachuteEjectionTime) / ctx.parachuteDeployTime)
    else s.parachuteDeploymentProgress
  if ¬s.isParachuteActive ∧ s.time ≥ ctx.parachuteActiveTime then
    { ejected := ejected, active := true, progress := 1.0
      vx := s.vx * 0.1, vy := s.vy * 0.1, kpEj := kpEj
      kpAct := { time := s.time, height := s.y, speed := s.vy * 0.1 } }
  else
    { ejected := ejected, active := s.isParachuteActive, progress := progress1
      vx := s.vx, vy := s.vy, kpEj := kpEj, kpAct := s.keyPoints.parachuteActive }

/-- velocity = |previous-step velocity| (prev_vx/prev_vy are saved from the
state before the parachute cut). -/
def stepVelocity (s : SimState) : ℝ := Real.sqrt (s.vx ^ 2 + s.vy ^ 2)

/-- distanceFromStart = |position|. -/
def stepDistanceFromStart (s : SimState) : ℝ := Real.sqrt (s.x ^ 2 + s.y ^ 2)

/-- onLaunchRail: still within the 0.65 m launch rail. -/
def stepOnRail (s : SimState) : Prop := stepDistanceFromStart s < launchRailLengthC

/-- effectiveWindSpeed at the current height. -/
def stepEws (ctx : Ctx) (s : SimState) : ℝ :=
  calculateWindSpeedAtHeight ctx.windSpeed s.y ctx.windProfile

/-- isCurrentlyZeroWind: effective wind below the 0.1 m/s threshold. -/
def stepZeroWind (ctx : Ctx) (s : SimState) : Prop := |stepEws ctx s| < 0.1

/-- adjustedOmega: the epsilon nudge applied only at launch angles of
exactly ±4 or ±18 degrees. -/
def stepAdjOmega (ctx : Ctx) (s : SimState) : ℝ :=
  let angleAdjustment : ℝ := if |ctx.angle| = 4 ∨ |ctx.angle| = 18 then 0.01 else 0
  s.omega + angleAdjustment * (if ctx.angle < 0 then -1 else 1)

/-- flightAngle = atan2(prev_vx, prev_vy): angle of the velocity vector from
vertical. -/
def stepFlightAngle (s : SimState) : ℝ := jsAtan2 s.vx s.vy

/-- Attitude in degrees normalised to (-180, 180] (source lines 1068-1070). -/
def stepNormalizedAbsAngle (ctx : Ctx) (s : SimState) : ℝ :=
  let d := jsRem (stepAdjOmega ctx s * 180 / Real.pi) 360
  if d > 180 then d - 360 else d

/-- The four moment contributions (ML, MD, MW, MF) as computed by the loop:
all zero under the zero-wind shortcut, otherwise the four call-site
expressions.  MD receives the side projected area in its bodyDiameter slot
and MF receives only 8 of its 14 arguments (shifted as in the source: the
3rd argument is finCount, the 4th is velocity, the 5th is flightAngle, the
6th is the rocketParams object itself — irrelevant, since centerOfGravity
arrives undefined and the null guard returns 0). -/
def stepMoments (ctx : Ctx) (s : SimState) : ℝ × ℝ × ℝ × ℝ :=
  if stepZeroWind ctx s then (0, 0, 0, 0)
  else
    let velocity := stepVelocity s
    let flightAngle := stepFlightAngle s
    let adjOmega := stepAdjOmega ctx s
    let ml := calculateLiftMoment velocity adjOmega flightAngle ctx.params
      ctx.projectedAreas.sideArea ctx.aerodynamicCenter.aerodynamicCenter
      ctx.params.centerOfGravity
    let md := calculateDragMoment velocity adjOmega flightAngle ctx.params
      ctx.projectedAreas.sideArea ctx.aerodynamicCenter.aerodynamicCenter
      ctx.params.centerOfGravity
    let mw := calculateWindMoment ctx.params.noseHeight ctx.bodyDiameter
      ctx.params.bodyHeight (stepEws ctx s) adjOmega ctx.projectedAreas.totalFinArea
      (some ctx.centerOfPressure.centerOfPressure) (some ctx.params.centerOfGravity)
    let mf := calculateFinMoment ctx.params.finHeight ctx.params.finBaseWidth
      ctx.params.finCount velocity flightAngle 0 (some ctx.params.finCp)
      (some ctx.params.centerOfGravity) none none none none none none
    (ml, md, mw, mf)

/-- rawTorque = ML + MD + MW + MF. -/
def stepRawTorque (ctx : Ctx) (s : SimState) : ℝ :=
  (stepMoments ctx s).1 + (stepMoments ctx s).2.1 + (stepMoments ctx s).2.2.1
    + (stepMoments ctx s).2.2.2

/-- The step is in a phase that computes the aerodynamic moments: neither
parachute phase is active, and either powered free flight with speed above
1 m/s or coast with speed above 0.5 m/s (the coast branch computes moments
even on the rail, as in the source). -/
def momentPhase (ctx : Ctx) (s : SimState) : Prop :=
  ¬(paraUpdate ctx s).active ∧ ¬(paraUpdate ctx s).ejected ∧
    ((s.time < ctx.thrustEndTime ∧ ¬stepOnRail s ∧ stepVelocity s > 1)
      ∨ (¬(s.time < ctx.thrustEndTime) ∧ stepVelocity s > 0.5))

/-- The abnormal-torque guard fires at this step: the moments are computed
and their raw sum exceeds 10 N·m in magnitude. -/
def stepAborts (ctx : Ctx) (s : SimState) : Prop :=
  momentPhase ctx s ∧ |stepRawTorque ctx s| > 10

/-- Result of the phase-specific force computation (source lines 1107-1355):
force components, torque, the thrust-end flag/keypoint, and whether the
abnormal-torque guard broke out of the loop. -/
structure ForceOut where
  abort : Bool
  fx : ℝ
  fy : ℝ
  torque : ℝ
  thrustEndFlag : Bool
  kpThrustEnd : KP

/-- The phase-switched force and torque computation.  The isFinite checks on
the moments (vacuous over ℝ) and the try/catch wrappers are dead branches
and not represented. -/
def forcePhase (ctx : Ctx) (s : SimState) : ForceOut :=
  let p := paraUpdate ctx s
  let velocity := stepVelocity s
  let onRail := stepOnRail s
  let ews := stepEws ctx s
  let adjOmega := stepAdjOmega ctx s
  let g : ℝ := 9.81
  let rho : ℝ := 1.225
  let initialOmega := ctx.angle * Real.pi / 180
  if p.active then
    let cdP : ℝ := 0.775
    let areaP := Real.pi * (ctx.parachuteDiameter / 2) ^ 2
    let dp := 0.5 * cdP * rho * velocity * velocity * areaP
    let fxfy := if velocity > 0.001 then
        (-dp * (s.vx / velocity), -dp * (s.vy / velocity))
      else ((0 : ℝ), (0 : ℝ))
    let dw := 0.5 * 0.25 * rho * |ews| * ews
        * (ctx.parachuteDiameter * ctx.parachuteDiameter * 0.785)
    let torque := if |adjOmega - initialOmega| > 0.01 then
        (initialOmega - adjOmega) * 0.001
      else 0
    { abort := false, fx := fxfy.1 - dw, fy := fxfy.2 - ctx.massKg * g
      torque := torque, thrustEndFlag := s.thrustEndFlag
      kpThrustEnd := s.keyPoints.thrustEnd }
  else if p.ejected then
    let fy0 := -ctx.massKg * g
    let fxfy := if velocity > 0.001 then (-0.1 * s.vx, fy0 - 0.1 * s.vy)
      else ((0 : ℝ), fy0)
    let dw := 0.5 * 0.25 * rho * |ews| * ews * (ctx.bodyDiameter * ctx.bodyLength * 0.5)
    { abort := false, fx := fxfy.1 - dw * 0.5, fy := fxfy.2
      torque := (initialOmega - adjOmega) * 0.0005
      thrustEndFlag := s.thrustEndFlag, kpThrustEnd := s.keyPoints.thrustEnd }
  else
    let ratio := ctx.params.noseHeight * 0.001 / ctx.bodyDiameter
    let alfa := (0.9 - ctx.noseCd) / 9
    let cdBody := alfa * ratio ^ 2 - 6 * alfa * ratio + (ctx.noseCd + 9 * alfa)
    let areaBody := Real.pi * (ctx.bodyDiameter / 2) ^ 2 + ctx.finwidthM * ctx.finThicknessM * 4
    let dTotal := 0.5 * cdBody * rho * velocity * velocity * areaBody
    let dWind := 0.5 * 0.25 * rho * |ews| * ews * (ctx.bodyDiameter * ctx.bodyLength)
    if s.time < ctx.thrustEndTime then
      let thrustIndex := min (⌊s.time / dtC⌋.toNat) (ctx.thrustData.length - 1)
      let thrust := ctx.thrustData.getD thrustIndex 0
      if onRail then
        let fxfy := if ctx.angle = 0 then (-dWind, thrust - ctx.massKg * g)
          else (thrust * Real.sin adjOmega - dWind,
                thrust * Real.cos adjOmega - ctx.massKg * g)
        { abort := false, fx := fxfy.1, fy := fxfy.2, torque := 0
          thrustEndFlag := s.thrustEndFlag, kpThrustEnd := s.keyPoints.thrustEnd }
      else
        let fa := stepFlightAngle s
        let fxfy := if velocity > 0.001 then
            (thrust * Real.sin adjOmega - dTotal * Real.sin fa - dWind,
             thrust * Real.cos adjOmega - ctx.massKg * g - dTotal * Real.cos fa)
          else (thrust * Real.sin adjOmega - dWind,
                thrust * Real.cos adjOmega - ctx.massKg * g)
        if velocity > 1 then
          let raw := stepRawTorque ctx s
          if |raw| > 10 then
            { abort := true, fx := fxfy.1, fy := fxfy.2, torque := 0
              thrustEndFlag := s.thrustEndFlag, kpThrustEnd := s.keyPoints.thrustEnd }
          else
            { abort := false, fx := fxfy.1, fy := fxfy.2
              torque := max (-1) (min 1 raw)
              thrustEndFlag := s.thrustEndFlag, kpThrustEnd := s.keyPoints.thrustEnd }
        else
          { abort := false, fx := fxfy.1, fy := fxfy.2, torque := 0
            thrustEndFlag := s.thrustEndFlag, kpThrustEnd := s.keyPoints.thrustEnd }
    else
      let kpT := if s.thrustEndFlag then s.keyPoints.thrustEnd
        else ({ time := s.time, height := s.y, speed := s.vy } : KP)
      let fa := stepFlightAngle s
      let fxfy := if velocity > 0.001 then
          (-dTotal * Real.sin fa + dWind, -ctx.massKg * g - dTotal * Real.cos fa)
        else (dWind, -ctx.massKg * g)
      if velocity > 0.5 then
        let raw := stepRawTorque ctx s
        if |raw| > 10 then
          { abort := true, fx := fxfy.1, fy := fxfy.2, torque := 0
            thrustEndFlag := true, kpThrustEnd := kpT }
        else
          let t0 := max (-1) (min 1 raw)
          let t1 := if |ctx.angle| = 4 ∨ |ctx.angle| = 18 then t0 * 1.2 else t0
          { abort := false, fx := fxfy.1, fy := fxfy.2, torque := t1
            thrustEndFlag := true, kpThrustEnd := kpT }
      else
        { abort := false, fx := fxfy.1, fy := fxfy.2, torque := 0
          thrustEndFlag := true, kpThrustEnd := kpT }

/-- Acceleration from force with the near-zero-mass guard. -/
def accelOf (massKg fx fy : ℝ) : ℝ × ℝ :=
  if |massKg| < 1e-6 then (0, -9.81) else (fx / massKg, fy / massKg)

/-- State returned when the abnormal-torque guard breaks out of the loop:
the updates performed earlier in the same iteration (parachute bookkeeping,
absolute-angle tracking, fin-deflection maximum, thrust-end keypoint) are
kept, no sample is pushed, time is not advanced, and isTorqueStableOK is
cleared. -/
def abortState (ctx : Ctx) (s : SimState) : SimState :=
  let p := paraUpdate ctx s
  let f := forcePhase ctx s
  let velocity := stepVelocity s
  let onRail := stepOnRail s
  let normAbs := stepNormalizedAbsAngle ctx s
  let maxAbs := if ¬onRail ∧ ¬p.ejected ∧ |normAbs| > |s.maxAbsoluteAngle| then normAbs
    else s.maxAbsoluteAngle
  let absOK := if ¬onRail ∧ ¬p.ejected ∧ |normAbs| > 112.5 then false
    else s.isAbsoluteAngleOK
  let finD := if velocity > 5 then
      calculateFinDeflection velocity (finMatE FinMat.light_veneer) ctx.params
        s.angleChangePerDt2
    else 0
  let maxFinD := if velocity > 5 ∧ finD > s.maxFinDeflection then finD
    else s.maxFinDeflection
  let kps : KeyPoints :=
    { s.keyPoints with
      parachuteEjection := p.kpEj
      parachuteActive := p.kpAct
      thrustEnd := f.kpThrustEnd }
  { s with
    isParachuteEjected := p.ejected, isParachuteActive := p.active
    parachuteDeploymentProgress := p.progress, vx := p.vx, vy := p.vy
    maxAbsoluteAngle := maxAbs, isAbsoluteAngleOK := absOK
    maxFinDeflection := maxFinD, thrustEndFlag := f.thrustEndFlag
    keyPoints := kps
    isTorqueStableOK := false, broken := true }

/-- The enhanced-attitude-control adjustment (source lines 1528-1628),
applied only when the config toggle is on, wind is non-zero, the rocket has
left the rail and the parachute is not ejected.  omega1 is the attitude
after the physics-based update; returns the adjusted attitude. -/
def enhancedOmegaCalc (ctx : Ctx) (p : ParaOut) (thrustEnded : Bool)
    (omega1 velocity ews : ℝ) : ℝ :=
  let fa := jsAtan2 p.vx p.vy
  if thrustEnded then
    let targetOmega := fa
    let adjustRate := min 0.05 (0.002 * velocity)
    let newOmega := omega1 * (1 - adjustRate) + targetOmega * adjustRate
    if |newOmega - omega1| > 0.2 then omega1 + jsSign (newOmega - omega1) * 0.2
    else newOmega
  else
    let windAngle := if ews > 0 then (0 : ℝ) else Real.pi
    let perpendicularToWind1 := windAngle + Real.pi / 2
    let perpendicularToWind2 := windAngle - Real.pi / 2
    let targetOmega :=
      if |ews| < 0.5 then fa
      else
        let isMovingUpwind : Prop := (ews < 0 ∧ p.vx > 0) ∨ (ews > 0 ∧ p.vx < 0)
        if isMovingUpwind ∧ ctx.cfg.windAngleLimitation then
          (if ews < 0 then max fa perpendicularToWind2 else min fa perpendicularToWind1)
        else fa
    let adjustRate := min 0.05 (0.002 * velocity)
    let windFactor := min 0.8 (|ews| / 6.0)
    let finalAdjustRate := adjustRate * (1 + windFactor)
    let newOmega := omega1 * (1 - finalAdjustRate) + targetOmega * finalAdjustRate
    if |newOmega - omega1| > 0.2 then omega1 + jsSign (newOmega - omega1) * 0.2
    else newOmega

/-- The sample pushed by a non-aborting iteration, plus the full next state.
This is the rest of the loop body after the force computation: torque
accumulation, the dt2-cadence rotational update with its stability check,
the physics-based attitude update and rolling angle-change window, the
optional enhanced attitude control, velocity update with the 100 m/s clamp,
the ±5 rad/s angular-velocity clamp, rail-constrained or free position
update, running maxima and keypoints, and the data push.
PHYSICAL_ATTITUDE_CONTROL is true, so its block is unconditional. -/
def contState (ctx : Ctx) (s : SimState) : SimState :=
  let p := paraUpdate ctx s
  let f := forcePhase ctx s
  let velocity := stepVelocity s
  let distanceFromStart := stepDistanceFromStart s
  let onRail := stepOnRail s
  let ews := stepEws ctx s
  let zeroWind := stepZeroWind ctx s
  let normAbs := stepNormalizedAbsAngle ctx s
  let maxAbs := if ¬onRail ∧ ¬p.ejected ∧ |normAbs| > |s.maxAbsoluteAngle| then normAbs
    else s.maxAbsoluteAngle
  let absOK := if ¬onRail ∧ ¬p.ejected ∧ |normAbs| > 112.5 then false
    else s.isAbsoluteAngleOK
  let finD := if velocity > 5 then
      calculateFinDeflection velocity (finMatE FinMat.light_veneer) ctx.params
        s.angleChangePerDt2
    else 0
  let maxFinD := if velocity > 5 ∧ finD > s.maxFinDeflection then finD
    else s.maxFinDeflection
  let axay := accelOf ctx.massKg f.fx f.fy
  let totalTorque1 := s.totalTorque + f.torque
  let stepCounter1 := s.stepCounter + 1
  let doUpd : Prop := stepCounter1 ≥ angleStepsPerUpdate
  let avgTorque := totalTorque1 / (stepCounter1 : ℝ)
  let angAccNew := if |ctx.momentOfInertia| < 1e-6 then 0
    else avgTorque / ctx.momentOfInertia
  let angAcc1 := if doUpd then angAccNew else s.angularAcceleration
  let angVel1 := if doUpd then
      max (-3) (min 3 (s.angularVelocity + angAccNew * angleResponseDt))
    else s.angularVelocity
  let angCh1 := if doUpd then angVel1 * angleResponseDt else s.angleChangePerDt2
  let angChDeg := angCh1 * 180 / Real.pi
  let maxAngCh1 := if doUpd ∧ ¬p.ejected ∧ |angChDeg| > |s.maxAngleChangePerDt2| then
      angChDeg
    else s.maxAngleChangePerDt2
  let angOK1 := if doUpd ∧ ¬p.ejected ∧ |angChDeg| > 45 then false else s.isAngleStableOK
  let stepCounter2 := if doUpd then 0 else stepCounter1
  let totalTorque2 := if doUpd then 0 else totalTorque1
  let physChange := angCh1 / (angleStepsPerUpdate : ℝ)
  let initialOmegaRad := ctx.angle * Real.pi / 180
  let omega1 := if zeroWind ∧ ¬onRail then
      (if |s.omega - initialOmegaRad| < 0.0001 then initialOmegaRad
       else s.omega * (1 - 0.005) + initialOmegaRad * 0.005)
    else s.omega + physChange
  let prevOmegaDeg := jsRem (s.prevOmega * 180 / Real.pi) 360
  let currOmegaDeg := jsRem (omega1 * 180 / Real.pi) 360
  let d0 := currOmegaDeg - prevOmegaDeg
  let deltaOmega := if d0 > 180 then d0 - 360 else if d0 < -180 then d0 + 360 else d0
  let buffer1 := s.angleChangeBuffer ++ [deltaOmega]
  let buffer2 := if buffer1.length > angleStepsPerUpdate then buffer1.drop 1 else buffer1
  let totalAngleChange := buffer2.sum
  let maxAngCh2 := if ¬p.ejected ∧ ¬onRail ∧ |totalAngleChange| > |maxAngCh1| then
      totalAngleChange
    else maxAngCh1
  let angOK2 := if ¬p.ejected ∧ ¬onRail ∧ |totalAngleChange| > 45 then false else angOK1
  let prevOmega1 := omega1
  let omega2 := if ctx.cfg.enhancedAttitudeControl ∧ ¬zeroWind ∧ ¬onRail ∧ ¬p.ejected then
      enhancedOmegaCalc ctx p f.thrustEndFlag omega1 velocity ews
    else omega1
  let vx1 := p.vx + axay.1 * dtC
  let vy1 := p.vy + axay.2 * dtC
  let currentSpeed := Real.sqrt (vx1 ^ 2 + vy1 ^ 2)
  let vx2 := if currentSpeed > 100 then vx1 * (100 / currentSpeed) else vx1
  let vy2 := if currentSpeed > 100 then vy1 * (100 / currentSpeed) else vy1
  let angVel2 := max (-5) (min 5 angVel1)
  let xy :=
    if onRail then
      (if ctx.angle = 0 then ((0 : ℝ), s.y + vy2 * dtC)
       else
         let railDistance := min (distanceFromStart + velocity * dtC) launchRailLengthC
         (railDistance * Real.sin omega2, railDistance * Real.cos omega2))
    else (s.x + vx2 * dtC, s.y + vy2 * dtC)
  let x1 := xy.1
  let y1 := xy.2
  let prec1 := if y1 > s.precMaxHeight then y1 else s.precMaxHeight
  let kpPrec := if y1 > s.precMaxHeight then ({ time := s.time, height := y1, speed := vy2 } : KP)
    else s.keyPoints.precMaxHeight
  let maxH1 := if y1 > s.maxHeight then y1 else s.maxHeight
  let kpMaxH := if y1 > s.maxHeight then ({ time := s.time, height := y1, speed := vy2 } : KP)
    else s.keyPoints.maxHeight
  let maxSp1 := if currentSpeed > s.maxSpeed then currentSpeed else s.maxSpeed
  let maxD1 := if |x1| > s.maxDistance then |x1| else s.maxDistance
  let kpsNew : KeyPoints :=
    { thrustEnd := f.kpThrustEnd
      precMaxHeight := kpPrec
      maxHeight := kpMaxH
      parachuteEjection := p.kpEj
      parachuteActive := p.kpAct }
  let sample : Sample :=
    { time := s.time, physicsX := x1, height := y1, vx := vx2, vy := vy2
      speedMagnitude := Real.sqrt (vx2 ^ 2 + vy2 ^ 2)
      omega := omega2, torque := f.torque
      angleChangePerDt2 := totalAngleChange
      isParachuteEjected := p.ejected, isParachuteActive := p.active
      parachuteDeploymentProgress := p.progress
      effectiveWindSpeed := ews, finDeflection := finD }
  { time := s.time + dtC, x := x1, y := y1, vx := vx2, vy := vy2
    omega := omega2, angularVelocity := angVel2, angularAcceleration := angAcc1
    prevOmega := prevOmega1
    data := s.data ++ [sample]
    isParachuteEjected := p.ejected, isParachuteActive := p.active
    parachuteDeploymentProgress := p.progress
    maxAngleChangePerDt2 := maxAngCh2
    isAngleStableOK := angOK2, isAbsoluteAngleOK := absOK
    thrustEndFlag := f.thrustEndFlag
    angleChangeBuffer := buffer2
    maxAbsoluteAngle := maxAbs
    stepCounter := stepCounter2, totalTorque := totalTorque2
    angleChangePerDt2 := angCh1
    isTorqueStableOK := s.isTorqueStableOK
    broken := s.broken
    precMaxHeight := prec1, maxHeight := maxH1, maxSpeed := maxSp1
    maxDistance := maxD1, maxFinDeflection := maxFinD
    keyPoints := kpsNew }

/-- One iteration of the simulation loop body. -/
def flightStep (ctx : Ctx) (s : SimState) : SimState :=
  if (forcePhase ctx s).abort then abortState ctx s else contState ctx s

/-- The while-condition: (y >= 0 || time < 0.1) && time < MAX_TIME. -/
def loopGuard (s : SimState) : Prop := (s.y ≥ 0 ∨ s.time < 0.1) ∧ s.time < 20

/-- Fuel-indexed unfolding of the simulation while-loop.  A broken state
(the torque-guard break) stops iteration immediately. -/
def loopGo (ctx : Ctx) : ℕ → SimState → SimState
  | 0, s => s
  | n + 1, s =>
    if s.broken then s
    else if loopGuard s then loopGo ctx n (flightStep ctx s) else s

/-- The all-zero initial keyPoints record. -/
def kpInit : KeyPoints :=
  { thrustEnd := kp0
    precMaxHeight := kp0
    maxHeight := kp0
    parachuteEjection := kp0
    parachuteActive := kp0 }

/-- Initial loop state: everything zero except the attitude, which starts at
the launch angle in radians. -/
def initState (angle : ℝ) : SimState :=
  { time := 0, x := 0, y := 0, vx := 0, vy := 0
    omega := angle * Real.pi / 180, angularVelocity := 0, angularAcceleration := 0
    prevOmega := angle * Real.pi / 180
    data := [], isParachuteEjected := false, isParachuteActive := false
    parachuteDeploymentProgress := 0
    maxAngleChangePerDt2 := 0, isAngleStableOK := true, isAbsoluteAngleOK := true
    thrustEndFlag := false, angleChangeBuffer := [], maxAbsoluteAngle := 0
    stepCounter := 0, totalTorque := 0, angleChangePerDt2 := 0
    isTorqueStableOK := true, broken := false
    precMaxHeight := 0, maxHeight := 0, maxSpeed := 0, maxDistance := 0
    maxFinDeflection := 0
    keyPoints := kpInit }

/-- MAX_TIME / dt: time starts at 0 and advances by exactly dt = 0.02 per
iteration, so the while-condition time < 20 fails after at most 1000 body
executions — this fuel never runs out before the guard does. -/
def maxSimSteps : ℕ := 1000

/-- The terminal angleStability record. -/
structure AngleStability where
  maxAngleChangePerDt2 : ℝ
  isAngleStableOK : Bool
  isAbsoluteAngleOK : Bool
  isTorqueStableOK : Bool
  isStabilityOverallOK : Bool
  maxAbsoluteAngle : ℝ

/-- JS Math.round (half-up). -/
def jsRound (x : ℝ) : ℤ := ⌊x + 0.5⌋

/-- parseFloat(x.toFixed(2)) as round-half-up at two decimals (display-only
field; JS toFixed rounds ties away from zero, which differs only at exact
half-cent negatives). -/
def jsFixed2 (x : ℝ) : ℝ := (jsRound (x * 100) : ℝ) / 100

/-- The rounded display sub-record of the result. -/
structure Calculations where
  aerodynamicCenter : ℤ
  pressureCenter : ℤ
  stabilityCenterOfPressure : ℤ
  standardStaticMargin : ℝ
  stabilityStaticMargin : ℝ
  finDivergenceSpeed : ℤ
  finFlutterSpeed : ℤ

/-- The return object of calculateFlightPath.  Note: it has no error field
of any kind — the only trace of a torque abort is the isTorqueStableOK
boolean inside angleStability, alongside the partial data array. -/
structure FlightResult where
  data : List Sample
  precMaxHeight : ℝ
  maxHeight : ℝ
  maxSpeed : ℝ
  maxDistance : ℝ
  maxFinDeflection : ℝ
  keyPoints : KeyPoints
  angleStability : AngleStability
  projectedAreas : Areas
  volumes : Volumes
  pressureCenter : CpData
  aerodynamicCenter : AcData
  stabilityCenterOfPressure : StabCpData
  staticMargins : Margins
  calculations : Calculations

/-- Assembly of the return object from the terminal loop state (source
lines 1764-1795). -/
def mkResult (ctx : Ctx) (s : SimState) : FlightResult :=
  { data := s.data, precMaxHeight := s.precMaxHeight, maxHeight := s.maxHeight
    maxSpeed := s.maxSpeed, maxDistance := s.maxDistance
    maxFinDeflection := s.maxFinDeflection
    keyPoints := s.keyPoints
    angleStability :=
      { maxAngleChangePerDt2 := s.maxAngleChangePerDt2
        isAngleStableOK := s.isAngleStableOK
        isAbsoluteAngleOK := s.isAbsoluteAngleOK
        isTorqueStableOK := s.isTorqueStableOK
        isStabilityOverallOK := s.isAngleStableOK && s.isAbsoluteAngleOK
          && s.isTorqueStableOK
        maxAbsoluteAngle := s.maxAbsoluteAngle }
    projectedAreas := ctx.projectedAreas, volumes := ctx.volumes
    pressureCenter := ctx.centerOfPressure
    aerodynamicCenter := ctx.aerodynamicCenter
    stabilityCenterOfPressure := ctx.stabilityCenterOfPressure
    staticMargins := ctx.staticMargins
    calculations :=
      { aerodynamicCenter := jsRound ctx.aerodynamicCenter.aerodynamicCenter
        pressureCenter := jsRound ctx.centerOfPressure.centerOfPressure
        stabilityCenterOfPressure :=
          jsRound ctx.stabilityCenterOfPressure.stabilityCenterOfPressure
        standardStaticMargin := jsFixed2 ctx.staticMargins.standardStaticMargin
        stabilityStaticMargin := jsFixed2 ctx.staticMargins.stabilityStaticMargin
        finDivergenceSpeed := jsRound (calculateFinDivergenceSpeed ctx.params)
        finFlutterSpeed := jsRound (calculateFinFlutterSpeed ctx.params) } }

/-- calculateFlightPath: build the pre-loop context, run the fixed-step
simulation loop from the initial state, and assemble the result object. -/
def calculateFlightPath (p : RocketParams) (angle windSpeed : ℝ)
    (profile : WindProfile) (cfg : SimConfig) : FlightResult :=
  let ctx := mkCtx p angle windSpeed profile cfg
  mkResult ctx (loopGo ctx maxSimSteps (initState angle))

/-- The LandingPrediction result object. -/
structure LandingPrediction where
  landingX : ℝ
  landingDistance : ℝ
  timeToLanding : ℝ
  isPrediction : Bool

/-- defaultLandingPrediction from RocketLandingPrediction (returned for
empty/invalid flight data). -/
def defaultLandingPrediction : LandingPrediction :=
  { landingX := 0, landingDistance := 0, timeToLanding := 0, isPrediction := true }

/-- State of the coarse (dt = 0.05 s) descent extrapolation loop. -/
structure DescentState where
  height : ℝ
  x : ℝ
  vx : ℝ
  vy : ℝ
  remainingTime : ℝ

/-- One iteration of predictLanding's descent loop.  The parachute booleans
are those of the terminal sample, fixed for the whole extrapolation.  Note
the source adds gravity a second time for the two non-active phases (their
branch already included it), and adds none in the parachute-active branch;
both are reproduced. -/
def descentStep (windSpeed : ℝ) (profile : WindProfile)
    (isParachuteActive isParachuteEjected : Bool)
    (parachuteDiameter bodyDiameter bodyLength massKg safeTerminalVelocity : ℝ)
    (st : DescentState) : DescentState :=
  let dt : ℝ := 0.05
  let g : ℝ := 9.81
  let rho : ℝ := 1.225
  let ews := calculateWindSpeedAtHeight windSpeed st.height profile
  let velocity := Real.sqrt (st.vx ^ 2 + st.vy ^ 2)
  let fxfy :=
    if isParachuteActive then
      let cd : ℝ := 0.775
      let area := Real.pi * (parachuteDiameter / 2) ^ 2
      let dp := 0.5 * cd * rho * velocity * velocity * area
      let f1 := if velocity > 0.001 then
          (-dp * (st.vx / velocity), -dp * (st.vy / velocity))
        else ((0 : ℝ), (0 : ℝ))
      let sArea := parachuteDiameter * parachuteDiameter * 0.785
      let dw := 0.5 * 0.25 * rho * |ews| * ews * sArea
      (f1.1 - dw, f1.2)
    else if isParachuteEjected then
      let fy0 := -massKg * g
      let f1 := if velocity > 0.001 then (-0.1 * st.vx, fy0 - 0.1 * st.vy)
        else ((0 : ℝ), fy0)
      let sArea := bodyDiameter * bodyLength * 0.5
      let dw := 0.5 * 0.25 * rho * |ews| * ews * sArea
      (f1.1 - dw * 0.5, f1.2)
    else
      let fy0 := -massKg * g
      let f1 := if velocity > 0.001 then (-0.05 * st.vx, fy0 - 0.05 * st.vy)
        else ((0 : ℝ), fy0)
      let sArea := bodyDiameter * bodyLength * 0.3
      let dw := 0.5 * 0.1 * rho * |ews| * ews * sArea
      (f1.1 - dw * 0.2, f1.2)
  let fy := if ¬isParachuteActive then fxfy.2 - massKg * g else fxfy.2
  let ax := fxfy.1 / massKg
  let ay := fy / massKg
  let vx1 := st.vx + ax * dt
  let vy1 := st.vy + ay * dt
  let vy2 := if isParachuteActive ∧ vy1 < -safeTerminalVelocity then -safeTerminalVelocity
    else vy1
  let x1 := st.x + vx1 * dt
  let h1raw := st.height + vy2 * dt
  let h1 := if h1raw < 0 then 0 else h1raw
  { height := h1, x := x1, vx := vx1, vy := vy2, remainingTime := st.remainingTime - dt }

/-- Fuel-indexed unfolding of the descent while-loop
(while currentHeight > 0 and remainingTime > 0).  remainingTime falls by
exactly 0.05 per iteration, so ceil(timeToLanding / 0.05) + 1 fuel always
outlasts the guard. -/
def descentGo (windSpeed : ℝ) (profile : WindProfile)
    (isParachuteActive isParachuteEjected : Bool)
    (parachuteDiameter bodyDiameter bodyLength massKg safeTerminalVelocity : ℝ) :
    ℕ → DescentState → DescentState
  | 0, st => st
  | n + 1, st =>
    if st.height > 0 ∧ st.remainingTime > 0 then
      descentGo windSpeed profile isParachuteActive isParachuteEjected
        parachuteDiameter bodyDiameter bodyLength massKg safeTerminalVelocity n
        (descentStep windSpeed profile isParachuteActive isParachuteEjected
          parachuteDiameter bodyDiameter bodyLength massKg safeTerminalVelocity st)
    else st

/-- predictLanding from RocketLandingPrediction.  With typed inputs, of the
source's defensive entry checks only the empty-array case remains reachable
(wrapper objects, numeric flightData and an invalid params object cannot be
expressed); the terminal sample's fields are always present so the ?? 0
defaults never fire.  finalVy || 5.0 and finalVy || -safeTerminalVelocity
treat a zero vy as falsy, reproduced via the = 0 tests. -/
def predictLanding (p : RocketParams) (flightData : List Sample)
    (windSpeed : ℝ) (profile : WindProfile) : LandingPrediction :=
  match flightData.getLast? with
  | none => defaultLandingPrediction
  | some lastDataPoint =>
    let finalHeight := lastDataPoint.height
    let finalX := lastDataPoint.physicsX
    let finalVx := lastDataPoint.vx
    let finalVy := lastDataPoint.vy
    let isParachuteActive := lastDataPoint.isParachuteActive
    let isParachuteEjected := lastDataPoint.isParachuteEjected
    if finalHeight ≤ 0 then
      { landingX := finalX, landingDistance := |finalX|
        timeToLanding := 0, isPrediction := false }
    else
      let parachuteDiameter := jsParachuteMm p.selectedParachute / 1000
      let bodyDiameter := p.bodyWidth / 1000
      let bodyLength := p.bodyHeight / 1000
      let massKg := p.weight * 0.001
      let parachuteTerminalVelocity :=
        if isParachuteActive then |if finalVy = 0 then 5.0 else finalVy| else 5.0
      let safeTerminalVelocity :=
        if parachuteTerminalVelocity > 0.5 then parachuteTerminalVelocity else 5.0
      let timeToLanding := finalHeight / safeTerminalVelocity
      let initVy := if finalVy = 0 then -safeTerminalVelocity else finalVy
      let st0 : DescentState :=
        { height := finalHeight, x := finalX, vx := finalVx, vy := initVy
          remainingTime := timeToLanding }
      let fuel := ⌈timeToLanding / 0.05⌉₊ + 1
      let stF := descentGo windSpeed profile isParachuteActive isParachuteEjected
        parachuteDiameter bodyDiameter bodyLength massKg safeTerminalVelocity fuel st0
      { landingX := stF.x, landingDistance := |stF.x|
        timeToLanding := timeToLanding, isPrediction := true }

/-- C3: calculateWindSpeedAtHeight returns baseSpeed unchanged at height ≤ 0
and whenever the profile's exponent alpha is 0; otherwise it returns
baseSpeed × min((height/1.5)^alpha, 3.0), so the amplification multiplier
never exceeds 3.0 for any height or alpha. -/
theorem wind_speed_at_height_spec (baseSpeed height : ℝ) (profile : WindProfile) :
    (height ≤ 0 → calculateWindSpeedAtHeight baseSpeed height profile = baseSpeed)
    ∧ (windProfileAlpha profile = 0 →
        calculateWindSpeedAtHeight baseSpeed height profile = baseSpeed)
    ∧ (0 < height → windProfileAlpha profile ≠ 0 →
        calculateWindSpeedAtHeight baseSpeed height profile
            = baseSpeed * min ((height / 1.5) ^ windProfileAlpha profile) 3
          ∧ min ((height / 1.5) ^ windProfileAlpha profile) 3 ≤ 3) := by
  refine ⟨fun h => by simp [calculateWindSpeedAtHeight, h], fun h => ?_, fun h1 h2 => ?_⟩
  · unfold calculateWindSpeedAtHeight
    split
    · rfl
    · simp [h]
  · unfold calculateWindSpeedAtHeight
    rw [if_neg (not_le.mpr h1), if_neg h2]
    refine ⟨?_, min_le_right _ _⟩
    norm_num

/-- C3 witness: at height 0 the urban profile returns the base speed 5
unchanged, and the uniform profile (alpha = 0) returns 5 at height 80. -/
theorem wind_speed_at_height_spec_witness :
    calculateWindSpeedAtHeight 5 0 WindProfile.urban = 5 ∧
      calculateWindSpeedAtHeight 5 80 WindProfile.uniform = 5 :=
  ⟨(wind_speed_at_height_spec 5 0 WindProfile.urban).1 (by norm_num),
   (wind_speed_at_height_spec 5 80 WindProfile.uniform).2.1 rfl⟩

/-- C8: for every RocketDesign the fin divergence speed is clamped into
[20, 300] m/s and the fin flutter speed into [30, 400] m/s. -/
theorem fin_speed_clamps (p : RocketParams) :
    (20 ≤ calculateFinDivergenceSpeed p ∧ calculateFinDivergenceSpeed p ≤ 300) ∧
      (30 ≤ calculateFinFlutterSpeed p ∧ calculateFinFlutterSpeed p ≤ 400) := by
  unfold calculateFinDivergenceSpeed calculateFinFlutterSpeed
  exact ⟨⟨le_max_left _ _, max_le (by norm_num) (min_le_left _ _)⟩,
    ⟨le_max_left _ _, max_le (by norm_num) (min_le_left _ _)⟩⟩

/-- C10: the fin moment contribution is exactly 0 at every step: the
simulation loop passes only 8 of calculateFinMoment's 14 arguments, so its
centerOfGravity parameter is undefined and the null guard returns 0 before
any computation; consequently the MF component of stepMoments is always 0
(it is also 0 on the zero-wind shortcut). -/
theorem fin_moment_call_always_zero :
    (∀ (finHeight finBaseWidth finSweepLength finTipWidth finCount velocity : ℝ)
        (omega flightAngle : Option ℝ) (mat : Option FinMat)
        (finCp noseHeight bodyHeight bodyWidth : Option ℝ),
      calculateFinMoment finHeight finBaseWidth finSweepLength finTipWidth
        finCount velocity omega flightAngle mat finCp noseHeight bodyHeight
        bodyWidth none = 0)
    ∧ ∀ (ctx : Ctx) (s : SimState), (stepMoments ctx s).2.2.2 = 0 := by
  have key : ∀ (a b c d e f : ℝ) (w fa : Option ℝ) (m : Option FinMat)
      (g h i j : Option ℝ),
      calculateFinMoment a b c d e f w fa m g h i j none = 0 := by
    intro a b c d e f w fa m g h i j
    rfl
  refine ⟨key, fun ctx s => ?_⟩
  unfold stepMoments
  split
  · rfl
  · exact key ctx.params.finHeight ctx.params.finBaseWidth ctx.params.finCount
      (stepVelocity s) (stepFlightAngle s) 0 (some ctx.params.finCp)
      (some ctx.params.centerOfGravity) none none none none none

/-- A raw parameter object with noseHeight missing and every other field
well-formed. -/
def rawParamsMissingNose : RawParams :=
  { noseShape := NoseShape.ogive, noseHeight := none, bodyHeight := some 255
    bodyWidth := some 31, finHeight := some 58.5, finBaseWidth := some 65
    finTipWidth := some 25, finThickness := some 1.5, finSweepLength := some 95
    finCount := some 3 }

/-- C7 counterexample: calculateVolume has no input guard — on an object
whose noseHeight is missing it returns a NaN-valued (none) noseVolume and
totalVolume, not the all-zero result object the claim asserts. -/
theorem volume_missing_field_not_zeroed :
    (calculateVolumeRaw rawParamsMissingNose).noseVolume = none ∧
      calculateVolumeRaw rawParamsMissingNose ≠ zeroOptVolumes := by
  have h : (calculateVolumeRaw rawParamsMissingNose).noseVolume = none := by
    simp [calculateVolumeRaw, rawParamsMissingNose, jsMulO]
  refine ⟨h, fun hc => ?_⟩
  rw [hc] at h
  simp [zeroOptVolumes] at h

/-- C7 amended: only calculateProjectedArea validates its inputs — it
returns the all-zero result object whenever any of its eight required
numeric geometry fields is missing (and all the property functions are
deterministic, being pure functions of their argument). -/
theorem projected_area_guard (p : RawParams)
    (h : p.noseHeight = none ∨ p.bodyHeight = none ∨ p.bodyWidth = none ∨
      p.finHeight = none ∨ p.finBaseWidth = none ∨ p.finTipWidth = none ∨
      p.finThickness = none ∨ p.finSweepLength = none) :
    calculateProjectedAreaRaw p = zeroAreas := by
  unfold calculateProjectedAreaRaw
  exact if_pos h

/-- C7 amended witness: the guard fires on the object missing noseHeight. -/
theorem projected_area_guard_witness :
    calculateProjectedAreaRaw rawParamsMissingNose = zeroAreas :=
  projected_area_guard rawParamsMissingNose (Or.inl rfl)

/-- C4 amended: the lift and drag moment functions cap velocity² at
10000 (m/s)² — their value depends on velocity only through
min(v², 10000), so any two speeds at or above 100 m/s give identical
moments — and the wind moment caps wind speed to ±25 m/s in the same sense
(calculateFinMoment caps neither; see the counterexample). -/
theorem moment_input_caps :
    (∀ (v w ω fa : ℝ) (p : RocketParams) (sa ac cg : ℝ), 100 ≤ v → 100 ≤ w →
      calculateLiftMoment v ω fa p sa ac cg = calculateLiftMoment w ω fa p sa ac cg)
    ∧ (∀ (v w ω fa : ℝ) (p : RocketParams) (bd ac cg : ℝ), 100 ≤ v → 100 ≤ w →
      calculateDragMoment v ω fa p bd ac cg = calculateDragMoment w ω fa p bd ac cg)
    ∧ (∀ (nh bd bh wv wv' ω tfa : ℝ) (cp cg : Option ℝ), 25 ≤ wv → 25 ≤ wv' →
      calculateWindMoment nh bd bh wv ω tfa cp cg
        = calculateWindMoment nh bd bh wv' ω tfa cp cg)
    ∧ (∀ (nh bd bh wv wv' ω tfa : ℝ) (cp cg : Option ℝ), wv ≤ -25 → wv' ≤ -25 →
      calculateWindMoment nh bd bh wv ω tfa cp cg
        = calculateWindMoment nh bd bh wv' ω tfa cp cg) := by
  have hcap : ∀ v : ℝ, 100 ≤ v → min (v * v) 10000 = (10000 : ℝ) := by
    intro v hv
    exact min_eq_right (by nlinarith)
  refine ⟨fun v w ω fa p sa ac cg hv hw => ?_, fun v w ω fa p bd ac cg hv hw => ?_,
    fun nh bd bh wv wv' ω tfa cp cg hv hw => ?_,
    fun nh bd bh wv wv' ω tfa cp cg hv hw => ?_⟩
  · simp only [calculateLiftMoment, hcap v hv, hcap w hw]
  · simp only [calculateDragMoment, hcap v hv, hcap w hw]
  · rcases cp with _ | cpv
    · rfl
    rcases cg with _ | cgv
    · rfl
    have e1 : max (-25 : ℝ) (min 25 wv) = 25 := by
      rw [min_eq_left hv]
      norm_num
    have e2 : max (-25 : ℝ) (min 25 wv') = 25 := by
      rw [min_eq_left hw]
      norm_num
    have h1 : ¬wv < 0 := by linarith
    have h2 : ¬wv' < 0 := by linarith
    have h3 : wv ≥ 0 := by linarith
    have h4 : wv' ≥ 0 := by linarith
    simp only [calculateWindMoment, e1, e2, h1, h2, h3, h4]
  · rcases cp with _ | cpv
    · rfl
    rcases cg with _ | cgv
    · rfl
    have e1 : max (-25 : ℝ) (min 25 wv) = -25 := by
      rw [min_eq_right (by linarith)]
      exact max_eq_left (by linarith)
    have e2 : max (-25 : ℝ) (min 25 wv') = -25 := by
      rw [min_eq_right (by linarith)]
      exact max_eq_left (by linarith)
    have h1 : wv < 0 := by linarith
    have h2 : wv' < 0 := by linarith
    have h3 : ¬wv ≥ 0 := by linarith
    have h4 : ¬wv' ≥ 0 := by linarith
    simp only [calculateWindMoment, e1, e2, h1, h2, h3, h4]

/-- The default rocket design of the UI layer (usePreFlightRocketSim's
initial state), with the mm geometry fields, A8-3 motor and 300 mm
parachute.  finCp starts undefined in the source and is written by
calculateFlightPath before use; 0 stands in for the incoming value. -/
def defaultParams : RocketParams :=
  { noseShape := NoseShape.ogive, noseHeight := 57, bodyHeight := 255
    bodyWidth := 31, finHeight := 58.5, finBaseWidth := 65, finTipWidth := 25
    finThickness := 1.5, finSweepLength := 95
    finMaterial := FinMat.light_veneer, finCount := 3, weight := 50
    centerOfGravity := 150, selectedMotor := "A8-3"
    selectedParachute := "φ300", finCp := 0 }

/-- C4 amended witness: lift moment at 150 m/s equals lift moment at
100 m/s for a concrete configuration, via the cap. -/
theorem moment_input_caps_witness :
    calculateLiftMoment 150 0.2 0 defaultParams 2 500 150
      = calculateLiftMoment 100 0.2 0 defaultParams 2 500 150 ∧
    calculateWindMoment 57 0.031 255 40 0 0.005 (some 200) (some 150)
      = calculateWindMoment 57 0.031 255 25 0 0.005 (some 200) (some 150) :=
  ⟨moment_input_caps.1 150 100 0.2 0 defaultParams 2 500 150 (by norm_num) (by norm_num),
   moment_input_caps.2.2.1 57 0.031 255 40 25 0 0.005 (some 200) (some 150)
     (by norm_num) (by norm_num)⟩

/-- C4 counterexample: calculateFinMoment does NOT cap velocity² at
10000 (m/s)².  At a concrete configuration (attitude π/2, flight angle 0,
4 fins, fin CP 100 mm, CG 0) the moment at 200 m/s is exactly 4 times the
moment at 100 m/s — and the latter is nonzero — whereas a function that
depended on velocity only through min(v², 10000) would return equal values
at 100 and 200 m/s.  (It also has no NaN/Infinity-to-0 guard in the
source, unlike the other three.) -/
theorem fin_moment_velocity_uncapped :
    calculateFinMoment 100 50 50 50 4 200 (some (Real.pi / 2)) (some 0) none
        (some 100) (some 100) (some 200) (some 30) (some 0)
      = 4 * calculateFinMoment 100 50 50 50 4 100 (some (Real.pi / 2)) (some 0) none
          (some 100) (some 100) (some 200) (some 30) (some 0)
    ∧ 0 < calculateFinMoment 100 50 50 50 4 100 (some (Real.pi / 2)) (some 0) none
        (some 100) (some 100) (some 200) (some 30) (some 0) := by
  have h2 : (0 : ℝ) < Real.pi / 2 := by positivity
  have hnl : ¬(Real.pi / 2 - 0 < 0) := by
    rw [sub_zero]
    linarith
  have hsin : Real.sin (Real.pi / 2 - 0) = 1 := by
    rw [sub_zero, Real.sin_pi_div_two]
  have hsgn : jsSign (Real.pi / 2 - 0) = 1 := by
    rw [sub_zero]
    unfold jsSign
    rw [if_pos h2]
  have hnl2 : ¬(Real.pi / 2 < 0) := by linarith
  have hsgn2 : jsSign (Real.pi / 2) = 1 := by
    unfold jsSign
    rw [if_pos h2]
  have key : ∀ v : ℝ, 0 < v →
      calculateFinMoment 100 50 50 50 4 v (some (Real.pi / 2)) (some 0) none
        (some 100) (some 100) (some 200) (some 30) (some 0)
      = 0.3 / (5 * 3.14 / 180) * (Real.pi / 2) * 0.5 * 1.225 * v * v
          * (0.005 * 2 * 0.0001 + 0.009 * 0.00015) := by
    intro v hv
    norm_num [calculateFinMoment, mmToM, hsin, hsgn, hnl]
    rw [if_neg hnl2, hsgn2, mul_one, abs_of_nonneg (by positivity)]
    ring_nf
    rw [show |(1 / 200 : ℝ)| = 1 / 200 from abs_of_pos (by norm_num),
        show |(1 / 10 : ℝ)| = 1 / 10 from abs_of_pos (by norm_num),
        show |(3 / 20 : ℝ)| = 3 / 20 from abs_of_pos (by norm_num)]
    ring
  rw [key 200 (by norm_num), key 100 (by norm_num)]
  constructor
  · ring
  · positivity

/-- C9: if the terminal FlightSample passed to predictLanding has
height ≤ 0, the prediction is the zero-time, non-predictive result whose
landing point is the terminal sample's horizontal position. -/
theorem predict_landing_grounded (p : RocketParams) (flightData : List Sample)
    (windSpeed : ℝ) (profile : WindProfile) (last : Sample)
    (hlast : flightData.getLast? = some last) (hh : last.height ≤ 0) :
    predictLanding p flightData windSpeed profile =
      { landingX := last.physicsX, landingDistance := |last.physicsX|
        timeToLanding := 0, isPrediction := false } := by
  unfold predictLanding
  rw [hlast]
  simp only [if_pos hh]

/-- A terminal sample already on the ground, 5 m downrange. -/
def groundedSample : Sample :=
  { time := 12, physicsX := 5, height := 0, vx := 0.3, vy := -2
    speedMagnitude := 2.1, omega := 0, torque := 0, angleChangePerDt2 := 0
    isParachuteEjected := true, isParachuteActive := true
    parachuteDeploymentProgress := 1, effectiveWindSpeed := 0
    finDeflection := 0 }

/-- C9 witness: a concrete grounded terminal sample yields timeToLanding 0,
isPrediction false and landingX = 5. -/
theorem predict_landing_grounded_witness :
    predictLanding defaultParams [groundedSample] 3 WindProfile.farmland =
      { landingX := 5, landingDistance := 5, timeToLanding := 0
        isPrediction := false } := by
  have h := predict_landing_grounded defaultParams [groundedSample] 3
    WindProfile.farmland groundedSample (by simp) (by norm_num [groundedSample])
  rw [h]
  norm_num [groundedSample]

/-- The abort branch of flightStep fires exactly through forcePhase: if the
step is in a moment-computing phase and the raw torque magnitude exceeds
10 N·m, forcePhase reports abort. -/
theorem forcePhase_abort_of_stepAborts (ctx : Ctx) (s : SimState)
    (h : stepAborts ctx s) : (forcePhase ctx s).abort = true := by
  obtain ⟨⟨hact, hej, hphase⟩, hraw⟩ := h
  simp only [forcePhase]
  rw [if_neg hact, if_neg hej]
  rcases hphase with ⟨hlt, hrail, hvel⟩ | ⟨hge, hvel⟩
  · rw [if_pos hlt, if_neg hrail, if_pos hvel, if_pos hraw]
  · rw [if_neg hge, if_pos hvel, if_pos hraw]

/-- Under the abnormal-torque condition, the step is the abort state. -/
theorem flightStep_aborts (ctx : Ctx) (s : SimState) (h : stepAborts ctx s) :
    flightStep ctx s = abortState ctx s := by
  unfold flightStep
  rw [if_pos (forcePhase_abort_of_stepAborts ctx s h)]

/-- A broken state is absorbing for the loop. -/
theorem loopGo_broken (ctx : Ctx) (n : ℕ) (s : SimState) (h : s.broken = true) :
    loopGo ctx n s = s := by
  cases n with
  | zero => rfl
  | succ n =>
    unfold loopGo
    rw [if_pos h]

/-- Projections of the abort state: broken, torque flag cleared, no sample
pushed, time not advanced. -/
theorem abortState_facts (ctx : Ctx) (s : SimState) :
    (abortState ctx s).broken = true ∧ (abortState ctx s).isTorqueStableOK = false
    ∧ (abortState ctx s).data = s.data ∧ (abortState ctx s).time = s.time :=
  ⟨rfl, rfl, rfl, rfl⟩

/-- The continue branch preserves the broken flag. -/
theorem contState_broken (ctx : Ctx) (s : SimState) :
    (contState ctx s).broken = s.broken := rfl

/-- flightStep is either the abort state or the continue state. -/
theorem flightStep_cases (ctx : Ctx) (s : SimState) :
    flightStep ctx s = abortState ctx s ∨ flightStep ctx s = contState ctx s := by
  unfold flightStep
  split
  · exact Or.inl rfl
  · exact Or.inr rfl

/-- If the loop ends broken (having started unbroken), the final state has
isTorqueStableOK = false and its simulated time — the entry time of the
breaking iteration — is strictly below 20 s. -/
theorem loopGo_broken_facts (ctx : Ctx) :
    ∀ (n : ℕ) (s : SimState), s.broken = false → (loopGo ctx n s).broken = true →
      (loopGo ctx n s).isTorqueStableOK = false ∧ (loopGo ctx n s).time < 20 := by
  intro n
  induction n with
  | zero =>
    intro s h0 hB
    rw [loopGo] at hB
    rw [h0] at hB
    cases hB
  | succ n ih =>
    intro s h0 hB
    have hc : ¬(s.broken = true) := by simp [h0]
    rw [loopGo] at hB ⊢
    rw [if_neg hc] at hB ⊢
    by_cases hg : loopGuard s
    · rw [if_pos hg] at hB ⊢
      rcases flightStep_cases ctx s with heq | heq
      · rw [heq] at hB ⊢
        rw [loopGo_broken ctx n _ (abortState_facts ctx s).1] at hB ⊢
        refine ⟨(abortState_facts ctx s).2.1, ?_⟩
        rw [(abortState_facts ctx s).2.2.2]
        exact hg.2
      · rw [heq] at hB ⊢
        exact ih (contState ctx s) (by rw [contState_broken, h0]) hB
    · rw [if_neg hg] at hB
      rw [h0] at hB
      cases hB

/-- C1: if during free flight (powered or coast) the combined raw torque
(sum of the four moment contributions) exceeds 10 N·m in magnitude at any
step, the loop breaks immediately — the step records no further sample,
does not advance time, sets isTorqueStableOK false, and no later iteration
runs — and any run whose loop ended broken has isTorqueStableOK = false
with final (= break-entry) time strictly before 20 s. -/
theorem torque_abort_spec :
    (∀ (ctx : Ctx) (s : SimState), stepAborts ctx s →
      (flightStep ctx s).broken = true
      ∧ (flightStep ctx s).isTorqueStableOK = false
      ∧ (flightStep ctx s).data = s.data
      ∧ (flightStep ctx s).time = s.time
      ∧ ∀ m : ℕ, loopGo ctx m (flightStep ctx s) = flightStep ctx s)
    ∧ ∀ (ctx : Ctx) (n : ℕ) (s : SimState), s.broken = false →
        (loopGo ctx n s).broken = true →
        (loopGo ctx n s).isTorqueStableOK = false ∧ (loopGo ctx n s).time < 20 := by
  constructor
  · intro ctx s h
    rw [flightStep_aborts ctx s h]
    exact ⟨rfl, rfl, rfl, rfl, fun m => loopGo_broken ctx m _ rfl⟩
  · exact fun ctx n s => loopGo_broken_facts ctx n s

/-- C5 (code bug): a torque-aborted run is returned through the ordinary
result object — FlightResult has no error field of any kind — carrying
exactly the partial trajectory recorded before the break, with only the
isTorqueStableOK boolean marking the abort. -/
theorem torque_abort_returns_partial_trajectory (ctx : Ctx) (n : ℕ) (s : SimState)
    (h0 : s.broken = false) (hB : (loopGo ctx n s).broken = true) :
    (mkResult ctx (loopGo ctx n s)).data = (loopGo ctx n s).data
    ∧ (mkResult ctx (loopGo ctx n s)).angleStability.isTorqueStableOK = false :=
  ⟨rfl, (loopGo_broken_facts ctx n s h0 hB).1⟩

/-- Every sample of the list has time strictly below c. -/
def timesBelow (c : ℝ) : List Sample → Prop
  | [] => True
  | d :: t => d.time < c ∧ timesBelow c t

/-- Appending one sample. -/
theorem timesBelow_append (c : ℝ) (l : List Sample) (d : Sample) :
    timesBelow c l → d.time < c → timesBelow c (l ++ [d]) := by
  intro hl hd
  induction l with
  | nil => exact ⟨hd, trivial⟩
  | cons a t ih => exact ⟨hl.1, ih hl.2⟩

/-- Weakening the bound. -/
theorem timesBelow_mono (c c' : ℝ) (h : c ≤ c') :
    ∀ l : List Sample, timesBelow c l → timesBelow c' l := by
  intro l
  induction l with
  | nil => exact fun h => h
  | cons a t ih => exact fun hl => ⟨lt_of_lt_of_le hl.1 h, ih hl.2⟩

/-- The continue branch pushes exactly one sample, stamped with the entry
time of the iteration. -/
theorem contState_data_time (ctx : Ctx) (s : SimState) :
    ∃ smp : Sample, (contState ctx s).data = s.data ++ [smp] ∧ smp.time = s.time :=
  ⟨_, rfl, rfl⟩

/-- Loop invariant: samples are only pushed by iterations whose guard held,
so every recorded time is < 20. -/
theorem loopGo_times (ctx : Ctx) :
    ∀ (n : ℕ) (s : SimState), timesBelow 20 s.data →
      timesBelow 20 (loopGo ctx n s).data := by
  intro n
  induction n with
  | zero => exact fun s h => h
  | succ n ih =>
    intro s h
    rw [loopGo]
    by_cases hb : s.broken = true
    · rw [if_pos hb]
      exact h
    rw [if_neg hb]
    by_cases hg : loopGuard s
    · rw [if_pos hg]
      apply ih
      rcases flightStep_cases ctx s with heq | heq
      · rw [heq, (abortState_facts ctx s).2.2.1]
        exact h
      · rw [heq]
        obtain ⟨smp, hd, ht⟩ := contState_data_time ctx s
        rw [hd]
        exact timesBelow_append 20 s.data smp h (by rw [ht]; exact hg.2)
    · rw [if_neg hg]
      exact h

/-- C2 amended: calculateFlightPath terminates (the loop is a total,
fuel-bounded function whose fuel outlasts the while-condition) and every
recorded FlightSample — in particular the last — has time < 20.0 + dt.
The height disjunct of the original claim is dropped: recorded heights are
never clamped, and on ground contact the final sample's height is negative
with isTorqueStableOK still true (see the counterexample). -/
theorem flight_samples_time_bound (p : RocketParams) (angle windSpeed : ℝ)
    (profile : WindProfile) (cfg : SimConfig) :
    timesBelow (20 + 0.02)
      (calculateFlightPath p angle windSpeed profile cfg).data := by
  have h := loopGo_times (mkCtx p angle windSpeed profile cfg) maxSimSteps
    (initState angle) trivial
  exact timesBelow_mono 20 (20 + 0.02) (by norm_num) _ h

/-- The ejection flag after the parachute update, in closed form. -/
theorem paraUpdate_ejected (ctx : Ctx) (s : SimState) :
    (paraUpdate ctx s).ejected
      = if ¬s.isParachuteEjected ∧ s.time ≥ ctx.parachuteEjectionTime then true
        else s.isParachuteEjected := by
  unfold paraUpdate
  dsimp only
  split <;> rfl

/-- C6: ejection delay parsing and the parachute phase machine — the delay
for motor A8-3 parses to 3 s from the designation suffix; the context built
by calculateFlightPath has parachuteEjectionTime = thrustEndTime + delay and
parachuteActiveTime exactly parachuteDeployTime = 1.0 s later; per step,
ejection triggers exactly when time reaches parachuteEjectionTime, the
deployment progress while deploying is min(1, (time - ejection)/deployTime)
(a linear 0-to-1 ramp over deployTime), and at the step where
parachuteActiveTime is reached the canopy becomes active with progress 1 and
both velocity components multiplied by 0.1 (unchanged on steps where
activation does not trigger). -/
theorem parachute_phase_spec :
    jsMotorDelay ("A8-3") = 3
    ∧ (∀ (p : RocketParams) (a w : ℝ) (pr : WindProfile) (c : SimConfig),
        (mkCtx p a w pr c).parachuteEjectionTime
            = (mkCtx p a w pr c).thrustEndTime + jsMotorDelay p.selectedMotor
          ∧ (mkCtx p a w pr c).parachuteActiveTime
            = (mkCtx p a w pr c).parachuteEjectionTime
                + (mkCtx p a w pr c).parachuteDeployTime
          ∧ (mkCtx p a w pr c).parachuteDeployTime = 1)
    ∧ ∀ (ctx : Ctx) (s : SimState),
        ((paraUpdate ctx s).ejected = true ↔
          (s.isParachuteEjected = true ∨ s.time ≥ ctx.parachuteEjectionTime))
        ∧ ((paraUpdate ctx s).ejected = true → (paraUpdate ctx s).active = false →
            (paraUpdate ctx s).progress
              = min 1 ((s.time - ctx.parachuteEjectionTime) / ctx.parachuteDeployTime))
        ∧ (s.isParachuteActive = false → s.time ≥ ctx.parachuteActiveTime →
            (paraUpdate ctx s).active = true
            ∧ (paraUpdate ctx s).progress = 1
            ∧ (paraUpdate ctx s).vx = s.vx * 0.1
            ∧ (paraUpdate ctx s).vy = s.vy * 0.1)
        ∧ ((s.isParachuteActive = true ∨ s.time < ctx.parachuteActiveTime) →
            (paraUpdate ctx s).vx = s.vx ∧ (paraUpdate ctx s).vy = s.vy) := by
  have hd3 : digitsVal (afterDash ("A8-3").toList) 0 = 3 := by decide
  refine ⟨?_, fun p a w pr c => ⟨rfl, rfl, ?_⟩, fun ctx s => ?_⟩
  · unfold jsMotorDelay
    rw [hd3]
    norm_num
  · show (1.0 : ℝ) = 1
    norm_num
  refine ⟨?_, ?_, ?_, ?_⟩
  · rw [paraUpdate_ejected]
    by_cases hE : s.isParachuteEjected = true
    · simp [hE]
    · have hE' : s.isParachuteEjected = false := by
        cases h : s.isParachuteEjected
        · rfl
        · exact absurd h hE
      by_cases hT : s.time ≥ ctx.parachuteEjectionTime
      · simp [hE', hT]
      · simp [hE', hT]
  · intro hEj hAct
    have hEj2 := hEj
    rw [paraUpdate_ejected] at hEj2
    unfold paraUpdate at hAct ⊢
    dsimp only at hAct ⊢
    by_cases hA : ¬s.isParachuteActive = true ∧ s.time ≥ ctx.parachuteActiveTime
    · rw [if_pos hA] at hAct
      dsimp only at hAct
      cases hAct
    · rw [if_neg hA] at hAct ⊢
      dsimp only at hAct ⊢
      rw [if_pos ⟨hEj2, by simp [hAct]⟩]
  · intro h1 h2
    unfold paraUpdate
    dsimp only
    rw [if_pos ⟨by simp [h1], h2⟩]
    refine ⟨rfl, by norm_num, rfl, rfl⟩
  · intro h
    have hN : ¬(¬s.isParachuteActive = true ∧ s.time ≥ ctx.parachuteActiveTime) := by
      rcases h with h | h
      · intro hc
        rw [h] at hc
        exact hc.1 rfl
      · intro hc
        exact absurd h (not_lt.mpr hc.2)
    unfold paraUpdate
    dsimp only
    rw [if_neg hN]
    exact ⟨rfl, rfl⟩

/-- Both attitude-control toggles off (the source defaults). -/
def cfgOff : SimConfig := { enhancedAttitudeControl := false, windAngleLimitation := false }

/-- Context of the default design, vertical launch, no wind. -/
def ctxA : Ctx := mkCtx defaultParams 0 0 WindProfile.uniform cfgOff

/-- A state at the parachute activation instant of the A8-3 flight
(thrust end 0.7 s + delay 3 s + deploy 1 s = 4.7 s). -/
def stateA : SimState := { initState 0 with time := 4.7, vx := 3, vy := -4 }

/-- C6 witness: at t = 4.7 s of an A8-3 flight the canopy activates,
progress is 1 and both velocity components are cut to 10%. -/
theorem parachute_phase_spec_witness :
    (paraUpdate ctxA stateA).active = true ∧ (paraUpdate ctxA stateA).progress = 1
    ∧ (paraUpdate ctxA stateA).vx = 0.3 ∧ (paraUpdate ctxA stateA).vy = -0.4 := by
  have hAT : ctxA.parachuteActiveTime = 4.7 := by
    show ((motorThrustData ("A8-3")).length : ℝ) * dtC + jsMotorDelay ("A8-3") + 1.0 = 4.7
    rw [show (motorThrustData ("A8-3")).length = 35 from rfl, parachute_phase_spec.1]
    norm_num [dtC]
  have h := (parachute_phase_spec.2.2 ctxA stateA).2.2.1 rfl
    (by rw [hAT]; norm_num [stateA])
  refine ⟨h.1, h.2.1, ?_, ?_⟩
  · rw [h.2.2.1]
    norm_num [stateA]
  · rw [h.2.2.2]
    norm_num [stateA]

/-- A deliberately unstable context: huge side projected area (2000 m²) and
aerodynamic center 1 m behind a nose-tip CG make the drag moment alone
exceed the 10 N·m threshold at 5 m/s; wind 5 m/s (uniform) defeats the
zero-wind shortcut; parachute times pushed out of reach. -/
def ctxT : Ctx :=
  { params := { defaultParams with centerOfGravity := 0, finCp := 100 }
    angle := 10, windSpeed := 5, windProfile := WindProfile.uniform
    cfg := cfgOff, massKg := 0.05
    thrustData := motorThrustData ("A8-3")
    bodyDiameter := 0, bodyLength := 0.312, finwidthM := 0.0585
    finThicknessM := 0.0015, momentOfInertia := 0.001, noseCd := 0.61
    thrustEndTime := 0.7, parachuteDelay := 1000, parachuteDeployTime := 1
    parachuteEjectionTime := 1000, parachuteActiveTime := 1001
    parachuteDiameter := 0.3
    projectedAreas := { frontalArea := 0, sideArea := 2000, noseArea := 0
                        finArea := 0, totalFinArea := 0, angledArea := 0 }
    centerOfPressure := { noseCp := 0, bodyCp := 0, finCp := 0
                          centerOfPressure := 0, foreBodyCp := 0 }
    aerodynamicCenter := { aerodynamicCenter := 1000 }
    stabilityCenterOfPressure := { stabilityCenterOfPressure := 0 }
    volumes := { bodyVolume := 0, noseVolume := 0, totalVolume := 0 }
    staticMargins := { standardStaticMargin := 0, stabilityStaticMargin := 0 } }

/-- Coast state at t = 1 s, 10 m up, rising at 5 m/s, attitude vertical. -/
def stateT : SimState := { initState 0 with time := 1, y := 10, vy := 5 }

/-- The torque guard fires at stateT: coast phase with velocity 5 m/s and
raw torque -30.29... N·m (the drag moment) of magnitude above 10. -/
theorem stateT_aborts : stepAborts ctxT stateT := by
  have hvel : stepVelocity stateT = 5 := by
    unfold stepVelocity
    norm_num [stateT, initState]
    rw [show (25 : ℝ) = 5 ^ 2 by norm_num, Real.sqrt_sq (by norm_num : (0:ℝ) ≤ 5)]
  have hfa : stepFlightAngle stateT = 0 := by
    unfold stepFlightAngle jsAtan2
    norm_num [stateT, initState, Real.arctan_zero]
  have hadj : stepAdjOmega ctxT stateT = 0 := by
    unfold stepAdjOmega
    norm_num [ctxT, stateT, initState]
  have hews : stepEws ctxT stateT = 5 := by
    unfold stepEws calculateWindSpeedAtHeight
    norm_num [ctxT, stateT, initState, windProfileAlpha]
  have hpe : (paraUpdate ctxT stateT).ejected = false := by
    rw [paraUpdate_ejected]
    norm_num [ctxT, stateT, initState]
  have hpa : (paraUpdate ctxT stateT).active = false := by
    unfold paraUpdate
    dsimp only
    rw [if_neg (by norm_num [ctxT, stateT, initState])]
    rfl
  have hml : (stepMoments ctxT stateT).1 = 0 := by
    unfold stepMoments
    rw [if_neg (by rw [stepZeroWind, hews]; norm_num)]
    dsimp only
    unfold calculateLiftMoment
    rw [hvel, hfa, hadj]
    norm_num [ctxT, defaultParams, mmToM]
  have hmw : (stepMoments ctxT stateT).2.2.1 = 0 := by
    unfold stepMoments
    rw [if_neg (by rw [stepZeroWind, hews]; norm_num)]
    dsimp only
    unfold calculateWindMoment
    rw [hews]
    norm_num [ctxT, defaultParams, mmToM]
  have hmf : (stepMoments ctxT stateT).2.2.2 = 0 := by
    unfold stepMoments
    rw [if_neg (by rw [stepZeroWind, hews]; norm_num)]
    dsimp only
    rfl
  have hmd : (stepMoments ctxT stateT).2.1 = -(0.63 * 0.5 * 1.225 * 25 * 3.14) := by
    unfold stepMoments
    rw [if_neg (by rw [stepZeroWind, hews]; norm_num)]
    dsimp only
    unfold calculateDragMoment
    rw [hvel, hfa, hadj]
    norm_num [ctxT, defaultParams, mmToM]
  refine ⟨⟨by simp [hpa], by simp [hpe], Or.inr ⟨by norm_num [ctxT, stateT, initState], ?_⟩⟩, ?_⟩
  · rw [hvel]
    norm_num
  · unfold stepRawTorque
    rw [hml, hmd, hmw, hmf]
    have he : (0 : ℝ) + -(0.63 * 0.5 * 1.225 * 25 * 3.14) + 0 + 0
        = -(484659 / 16000) := by norm_num
    rw [he, abs_neg, abs_of_pos (by norm_num)]
    norm_num

/-- C1 witness: the torque guard fires at the concrete ctxT/stateT, and the
step is broken with isTorqueStableOK cleared, no sample recorded and the
time (1 s < 20 s) frozen. -/
theorem torque_abort_spec_witness :
    stepAborts ctxT stateT
    ∧ (flightStep ctxT stateT).broken = true
    ∧ (flightStep ctxT stateT).isTorqueStableOK = false
    ∧ (flightStep ctxT stateT).data = stateT.data
    ∧ (flightStep ctxT stateT).time = stateT.time :=
  ⟨stateT_aborts, (torque_abort_spec.1 ctxT stateT stateT_aborts).1,
   (torque_abort_spec.1 ctxT stateT stateT_aborts).2.1,
   (torque_abort_spec.1 ctxT stateT stateT_aborts).2.2.1,
   (torque_abort_spec.1 ctxT stateT stateT_aborts).2.2.2.1⟩

/-- One loop iteration from stateT ends broken: the while-condition holds
(y = 10 ≥ 0, t = 1 < 20) and the step aborts. -/
theorem loopGo_one_stateT_broken :
    stateT.broken = false ∧ (loopGo ctxT 1 stateT).broken = true := by
  have hg : loopGuard stateT := by
    constructor
    · left
      norm_num [stateT, initState]
    · norm_num [stateT, initState]
  have h1 : loopGo ctxT 1 stateT = flightStep ctxT stateT := by
    unfold loopGo
    rw [if_neg (show ¬(stateT.broken = true) by norm_num [stateT, initState]),
      if_pos hg]
    rfl
  refine ⟨rfl, ?_⟩
  rw [h1, flightStep_aborts ctxT stateT stateT_aborts]
  exact (abortState_facts ctxT stateT).1

/-- C5 witness: that aborted run's returned object is the ordinary result
record holding the partial trajectory and isTorqueStableOK = false. -/
theorem torque_abort_returns_partial_trajectory_witness :
    (mkResult ctxT (loopGo ctxT 1 stateT)).data = (loopGo ctxT 1 stateT).data
    ∧ (mkResult ctxT (loopGo ctxT 1 stateT)).angleStability.isTorqueStableOK
        = false :=
  torque_abort_returns_partial_trajectory ctxT 1 stateT
    loopGo_one_stateT_broken.1 loopGo_one_stateT_broken.2

/-- The default design made too heavy to fly: 2 kg gross mass against the
A8-3's 9.8 N peak thrust.  All fields satisfy the data-model invariants
(positive finite geometry, 3 fins, enum motor/parachute). -/
def heavyParams : RocketParams := { defaultParams with weight := 2000 }

/-- Context of the heavy vertical zero-wind launch. -/
def ctxH : Ctx := mkCtx heavyParams 0 0 WindProfile.uniform cfgOff

/-- jsMotorDelay on the A8-3 designation. -/
theorem jsMotorDelay_A83 : jsMotorDelay ("A8-3") = 3 := by
  unfold jsMotorDelay
  rw [show digitsVal (afterDash ("A8-3").toList) 0 = 3 from by decide]
  norm_num

/-- The context facts the heavy-run evaluation needs. -/
theorem ctxH_facts :
    ctxH.angle = 0 ∧ ctxH.windSpeed = 0 ∧ ctxH.massKg = 2
    ∧ ctxH.thrustData = motorThrustData ("A8-3")
    ∧ ctxH.thrustEndTime = 0.7 ∧ ctxH.parachuteEjectionTime = 3.7
    ∧ ctxH.parachuteActiveTime = 4.7
    ∧ ctxH.cfg.enhancedAttitudeControl = false
    ∧ ctxH.windProfile = WindProfile.uniform := by
  refine ⟨rfl, rfl, by show (2000 : ℝ) / 1000 = 2; norm_num, rfl, ?_, ?_, ?_, rfl, rfl⟩
  · show ((motorThrustData ("A8-3")).length : ℝ) * dtC = 0.7
    rw [show (motorThrustData ("A8-3")).length = 35 from rfl]
    norm_num [dtC]
  · show ((motorThrustData ("A8-3")).length : ℝ) * dtC + jsMotorDelay ("A8-3") = 3.7
    rw [show (motorThrustData ("A8-3")).length = 35 from rfl, jsMotorDelay_A83]
    norm_num [dtC]
  · show ((motorThrustData ("A8-3")).length : ℝ) * dtC + jsMotorDelay ("A8-3") + 1.0 = 4.7
    rw [show (motorThrustData ("A8-3")).length = 35 from rfl, jsMotorDelay_A83]
    norm_num [dtC]

/-- sqrt of 0² + u² for nonpositive u. -/
theorem sqrt_zero_add_sq_nonpos (u : ℝ) (h : u ≤ 0) :
    Real.sqrt (0 ^ 2 + u ^ 2) = -u := by
  rw [show (0 : ℝ) ^ 2 + u ^ 2 = u ^ 2 by ring, Real.sqrt_sq_eq_abs, abs_of_nonpos h]

/-- One iteration of the heavy vertical zero-wind rail launch, in closed
form: the step integrates gravity-minus-thrust vertically, pushes exactly
one sample, and leaves the attitude machinery untouched. -/
theorem railStepH (s : SimState) (k : ℕ) (τ : ℝ)
    (h1 : s.x = 0) (h2 : s.vx = 0) (h3 : s.vy ≤ 0) (h4 : -1 ≤ s.vy)
    (h5 : s.y ≤ 0) (h6 : -0.6 < s.y)
    (h7 : s.time = 0.02 * (k : ℝ)) (h8 : k ≤ 4)
    (h9 : s.stepCounter = k)
    (h10 : s.isParachuteEjected = false) (h11 : s.isParachuteActive = false)
    (h12 : s.angleChangePerDt2 = 0) (h13 : s.angularVelocity = 0)
    (h14 : s.omega = 0) (h15 : s.prevOmega = 0)
    (h16 : s.angleChangeBuffer.length ≤ 8)
    (h17 : s.precMaxHeight = 0) (h18 : s.maxHeight = 0) (h19 : 0 ≤ s.maxDistance)
    (h20 : ctxH.thrustData.getD k 0 = τ) (h21 : 0 ≤ τ) (h22 : τ ≤ 10) :
    flightStep ctxH s =
      { time := s.time + 0.02
        x := 0
        y := s.y + (s.vy + (τ / 2 - 9.81) * 0.02) * 0.02
        vx := 0
        vy := s.vy + (τ / 2 - 9.81) * 0.02
        omega := 0
        angularVelocity := 0
        angularAcceleration := s.angularAcceleration
        prevOmega := 0
        data := s.data ++
          [{ time := s.time, physicsX := 0
             height := s.y + (s.vy + (τ / 2 - 9.81) * 0.02) * 0.02
             vx := 0
             vy := s.vy + (τ / 2 - 9.81) * 0.02
             speedMagnitude := -(s.vy + (τ / 2 - 9.81) * 0.02)
             omega := 0
             torque := 0
             angleChangePerDt2 := (s.angleChangeBuffer ++ [0]).sum
             isParachuteEjected := false
             isParachuteActive := false
             parachuteDeploymentProgress := s.parachuteDeploymentProgress
             effectiveWindSpeed := 0
             finDeflection := 0 }]
        isParachuteEjected := false
        isParachuteActive := false
        parachuteDeploymentProgress := s.parachuteDeploymentProgress
        maxAngleChangePerDt2 := s.maxAngleChangePerDt2
        isAngleStableOK := s.isAngleStableOK
        isAbsoluteAngleOK := s.isAbsoluteAngleOK
        thrustEndFlag := s.thrustEndFlag
        angleChangeBuffer := s.angleChangeBuffer ++ [0]
        maxAbsoluteAngle := s.maxAbsoluteAngle
        stepCounter := k + 1
        totalTorque := s.totalTorque
        angleChangePerDt2 := 0
        isTorqueStableOK := s.isTorqueStableOK
        broken := s.broken
        precMaxHeight := s.precMaxHeight
        maxHeight := s.maxHeight
        maxSpeed := if -(s.vy + (τ / 2 - 9.81) * 0.02) > s.maxSpeed
          then -(s.vy + (τ / 2 - 9.81) * 0.02) else s.maxSpeed
        maxDistance := s.maxDistance
        maxFinDeflection := s.maxFinDeflection
        keyPoints := s.keyPoints } := by
  obtain ⟨hA0, hW0, hM2, hTD, hTE, hPE, hPA, hEC, hWP⟩ := ctxH_facts
  have ht0 : 0 ≤ s.time := by
    rw [h7]
    positivity
  have ht8 : s.time ≤ 0.08 := by
    rw [h7]
    have : (k : ℝ) ≤ 4 := by exact_mod_cast h8
    linarith
  have hVel : stepVelocity s = -s.vy := by
    unfold stepVelocity
    rw [h2]
    exact sqrt_zero_add_sq_nonpos s.vy h3
  have hDist : stepDistanceFromStart s = -s.y := by
    unfold stepDistanceFromStart
    rw [h1]
    exact sqrt_zero_add_sq_nonpos s.y h5
  have hRail : stepOnRail s := by
    show stepDistanceFromStart s < launchRailLengthC
    rw [hDist]
    unfold launchRailLengthC
    linarith
  have hEws : stepEws ctxH s = 0 := by
    unfold stepEws
    rw [hW0, hWP]
    unfold calculateWindSpeedAtHeight
    rw [if_pos h5]
  have hZW : stepZeroWind ctxH s := by
    show |stepEws ctxH s| < 0.1
    rw [hEws]
    norm_num
  have hAdj : stepAdjOmega ctxH s = 0 := by
    unfold stepAdjOmega
    rw [hA0, h14]
    norm_num
  have hNorm : stepNormalizedAbsAngle ctxH s = 0 := by
    unfold stepNormalizedAbsAngle
    rw [hAdj]
    unfold jsRem jsTrunc
    norm_num
  have hT1 : ¬(s.time ≥ ctxH.parachuteEjectionTime) := by
    rw [hPE]
    linarith
  have hT2 : ¬(s.time ≥ ctxH.parachuteActiveTime) := by
    rw [hPA]
    linarith
  have hPU : paraUpdate ctxH s =
      { ejected := false, active := false
        progress := s.parachuteDeploymentProgress, vx := s.vx, vy := s.vy
        kpEj := s.keyPoints.parachuteEjection
        kpAct := s.keyPoints.parachuteActive } := by
    simp [paraUpdate, h10, h11, hT1, hT2]
  have hIdx : min (⌊s.time / dtC⌋).toNat (ctxH.thrustData.length - 1) = k := by
    rw [h7]
    unfold dtC
    rw [mul_div_cancel_left₀ _ (by norm_num : (0.02 : ℝ) ≠ 0), Int.floor_natCast,
      Int.toNat_natCast, hTD, show (motorThrustData ("A8-3")).length = 35 from rfl]
    exact min_eq_left (by omega)
  have hThr : ctxH.thrustData.getD
      (min (⌊s.time / dtC⌋).toNat (ctxH.thrustData.length - 1)) 0 = τ := by
    rw [hIdx, h20]
  have hTlt : s.time < ctxH.thrustEndTime := by
    rw [hTE]
    linarith
  have hfp : forcePhase ctxH s =
      { abort := false, fx := 0, fy := τ - 19.62, torque := 0
        thrustEndFlag := s.thrustEndFlag, kpThrustEnd := s.keyPoints.thrustEnd } := by
    unfold forcePhase
    rw [hPU]
    dsimp only
    rw [if_neg (Bool.false_ne_true), if_neg (Bool.false_ne_true),
      if_pos hTlt, if_pos hRail, if_pos hA0]
    dsimp only
    rw [hThr, hEws, hM2]
    simp only [ForceOut.mk.injEq]
    norm_num
  have hM6 : ¬(|ctxH.massKg| < 1e-6) := by
    rw [hM2]
    norm_num
  have hax : accelOf ctxH.massKg 0 (τ - 19.62) = (0, τ / 2 - 9.81) := by
    unfold accelOf
    rw [if_neg hM6, hM2, Prod.mk.injEq]
    constructor
    · norm_num
    · ring
  have hdo : ¬(k + 1 ≥ angleStepsPerUpdate) := by
    unfold angleStepsPerUpdate
    omega
  have hP5 : ¬(-s.vy > 5) := by
    linarith
  have hvy1 : s.vy + (τ / 2 - 9.81) * 0.02 < 0 := by
    linarith
  have hy1 : ¬(s.y + (s.vy + (τ / 2 - 9.81) * 0.02) * 0.02 > 0) := by
    linarith
  have hcs100 : ¬(-(s.vy + (τ / 2 - 9.81) * 0.02) > 100) := by
    linarith
  have hcs : Real.sqrt ((0 : ℝ) ^ 2 + (s.vy + (τ / 2 - 9.81) * 0.02) ^ 2)
      = -(s.vy + (τ / 2 - 9.81) * 0.02) :=
    sqrt_zero_add_sq_nonpos _ (le_of_lt hvy1)
  have hjs : jsRem 0 360 = (0 : ℝ) := by
    unfold jsRem jsTrunc
    rw [zero_div, if_pos le_rfl, Int.floor_zero]
    norm_num
  have hx1 : ¬((0 : ℝ) > s.maxDistance) := not_lt.mpr h19
  have hgt : ¬((0 : ℝ) > 180) := by
    norm_num
  have hlt : ¬((0 : ℝ) < -180) := by
    norm_num
  have hbuf : ¬((s.angleChangeBuffer ++ [(0 : ℝ)]).length > angleStepsPerUpdate) := by
    simp only [List.length_append, List.length_singleton]
    unfold angleStepsPerUpdate
    omega
  have hmax : max (-5 : ℝ) (min 5 0) = 0 := by
    rw [min_eq_right (by norm_num : (0 : ℝ) ≤ 5), max_eq_right (by norm_num : (-5 : ℝ) ≤ 0)]
  have hbf : ¬(false = true) := Bool.false_ne_true
  unfold flightStep
  rw [hfp]
  dsimp only
  rw [if_neg Bool.false_ne_true]
  unfold contState
  rw [hPU, hfp]
  dsimp only
  unfold dtC
  rw [hVel, hEws, h1, h2, h9, h12, h13, h14, h15, h17, h18, hax]
  dsimp only
  simp only [hRail, hZW, hdo, hP5, hy1, hcs, hcs100, hjs, hx1, hgt, hlt, hbuf,
    hmax, hbf, hA0, not_true, true_and, and_true, false_and, and_false,
    if_true, if_false, eq_self_iff_true, zero_mul, mul_zero, zero_div,
    zero_add, add_zero, sub_zero, sub_self, abs_zero]

/-- Sample pushed by the first iteration of the heavy vertical launch. -/
def sampH1 : Sample :=
  { time := 0, physicsX := 0, height := -0.003924, vx := 0, vy := -0.1962
    speedMagnitude := 0.1962, omega := 0, torque := 0, angleChangePerDt2 := 0
    isParachuteEjected := false, isParachuteActive := false
    parachuteDeploymentProgress := 0, effectiveWindSpeed := 0, finDeflection := 0 }

/-- State after one iteration of the heavy vertical launch. -/
def stH1 : SimState :=
  { time := 0.02, x := 0, y := -0.003924, vx := 0, vy := -0.1962
    omega := 0, angularVelocity := 0, angularAcceleration := 0, prevOmega := 0
    data := [sampH1], isParachuteEjected := false, isParachuteActive := false
    parachuteDeploymentProgress := 0
    maxAngleChangePerDt2 := 0, isAngleStableOK := true, isAbsoluteAngleOK := true
    thrustEndFlag := false, angleChangeBuffer := [0], maxAbsoluteAngle := 0
    stepCounter := 1, totalTorque := 0, angleChangePerDt2 := 0
    isTorqueStableOK := true, broken := false
    precMaxHeight := 0, maxHeight := 0, maxSpeed := 0.1962, maxDistance := 0
    maxFinDeflection := 0, keyPoints := kpInit }

/-- First iteration of the heavy vertical launch, concretely. -/
theorem railH1 : flightStep ctxH (initState 0) = stH1 := by
  rw [railStepH (initState 0) 0 0 rfl rfl (le_of_eq rfl) (by norm_num [initState])
      (le_of_eq rfl) (by norm_num [initState]) (by norm_num [initState]) (by norm_num)
      rfl rfl rfl rfl rfl (by simp [initState]) (by simp [initState])
      (by simp [initState]) rfl rfl (le_of_eq rfl)
      (by rw [ctxH_facts.2.2.2.1]
          simp only [motorThrustData, String.reduceEq, reduceIte]
          norm_num) (by norm_num) (by norm_num)]
  simp only [initState, stH1, sampH1, kpInit, List.nil_append]
  norm_num [SimState.mk.injEq, Sample.mk.injEq]

/-- Sample pushed by iteration 2 of the heavy vertical launch. -/
def sampH2 : Sample :=
  { time := 0.02, physicsX := 0, height := -0.0115938, vx := 0, vy := -0.38349
    speedMagnitude := 0.38349, omega := 0, torque := 0, angleChangePerDt2 := 0
    isParachuteEjected := false, isParachuteActive := false
    parachuteDeploymentProgress := 0, effectiveWindSpeed := 0, finDeflection := 0 }

/-- State after 2 iterations of the heavy vertical launch. -/
def stH2 : SimState :=
  { time := 0.04, x := 0, y := -0.0115938, vx := 0, vy := -0.38349
    omega := 0, angularVelocity := 0, angularAcceleration := 0, prevOmega := 0
    data := [sampH1, sampH2], isParachuteEjected := false, isParachuteActive := false
    parachuteDeploymentProgress := 0
    maxAngleChangePerDt2 := 0, isAngleStableOK := true, isAbsoluteAngleOK := true
    thrustEndFlag := false, angleChangeBuffer := [0, 0], maxAbsoluteAngle := 0
    stepCounter := 2, totalTorque := 0, angleChangePerDt2 := 0
    isTorqueStableOK := true, broken := false
    precMaxHeight := 0, maxHeight := 0, maxSpeed := 0.38349, maxDistance := 0
    maxFinDeflection := 0, keyPoints := kpInit }

/-- Iteration 2 of the heavy vertical launch, concretely. -/
theorem railH2 : flightStep ctxH stH1 = stH2 := by
  rw [railStepH stH1 1 0.891 rfl rfl (by norm_num [stH1]) (by norm_num [stH1])
      (by norm_num [stH1]) (by norm_num [stH1]) (by norm_num [stH1]) (by norm_num)
      rfl rfl rfl rfl rfl rfl rfl (by simp [stH1]) rfl rfl (le_of_eq rfl)
      (by rw [ctxH_facts.2.2.2.1]
          simp only [motorThrustData, String.reduceEq, reduceIte]
          norm_num) (by norm_num) (by norm_num)]
  simp only [stH1, stH2, sampH2, kpInit, List.cons_append, List.nil_append]
  norm_num [SimState.mk.injEq, Sample.mk.injEq]

/-- Sample pushed by iteration 3 of the heavy vertical launch. -/
def sampH3 : Sample :=
  { time := 0.04, physicsX := 0, height := -0.0228312, vx := 0, vy := -0.56187
    speedMagnitude := 0.56187, omega := 0, torque := 0, angleChangePerDt2 := 0
    isParachuteEjected := false, isParachuteActive := false
    parachuteDeploymentProgress := 0, effectiveWindSpeed := 0, finDeflection := 0 }

/-- State after 3 iterations of the heavy vertical launch. -/
def stH3 : SimState :=
  { time := 0.06, x := 0, y := -0.0228312, vx := 0, vy := -0.56187
    omega := 0, angularVelocity := 0, angularAcceleration := 0, prevOmega := 0
    data := [sampH1, sampH2, sampH3], isParachuteEjected := false, isParachuteActive := false
    parachuteDeploymentProgress := 0
    maxAngleChangePerDt2 := 0, isAngleStableOK := true, isAbsoluteAngleOK := true
    thrustEndFlag := false, angleChangeBuffer := [0, 0, 0], maxAbsoluteAngle := 0
    stepCounter := 3, totalTorque := 0, angleChangePerDt2 := 0
    isTorqueStableOK := true, broken := false
    precMaxHeight := 0, maxHeight := 0, maxSpeed := 0.56187, maxDistance := 0
    maxFinDeflection := 0, keyPoints := kpInit }

/-- Iteration 3 of the heavy vertical launch, concretely. -/
theorem railH3 : flightStep ctxH stH2 = stH3 := by
  rw [railStepH stH2 2 1.782 rfl rfl (by norm_num [stH2]) (by norm_num [stH2])
      (by norm_num [stH2]) (by norm_num [stH2]) (by norm_num [stH2]) (by norm_num)
      rfl rfl rfl rfl rfl rfl rfl (by simp [stH2]) rfl rfl (le_of_eq rfl)
      (by rw [ctxH_facts.2.2.2.1]
          simp only [motorThrustData, String.reduceEq, reduceIte]
          norm_num) (by norm_num) (by norm_num)]
  simp only [stH2, stH3, sampH3, kpInit, List.cons_append, List.nil_append]
  norm_num [SimState.mk.injEq, Sample.mk.injEq]

/-- Sample pushed by iteration 4 of the heavy vertical launch. -/
def sampH4 : Sample :=
  { time := 0.06, physicsX := 0, height := -0.037458, vx := 0, vy := -0.73134
    speedMagnitude := 0.73134, omega := 0, torque := 0, angleChangePerDt2 := 0
    isParachuteEjected := false, isParachuteActive := false
    parachuteDeploymentProgress := 0, effectiveWindSpeed := 0, finDeflection := 0 }

/-- State after 4 iterations of the heavy vertical launch. -/
def stH4 : SimState :=
  { time := 0.08, x := 0, y := -0.037458, vx := 0, vy := -0.73134
    omega := 0, angularVelocity := 0, angularAcceleration := 0, prevOmega := 0
    data := [sampH1, sampH2, sampH3, sampH4], isParachuteEjected := false, isParachuteActive := false
    parachuteDeploymentProgress := 0
    maxAngleChangePerDt2 := 0, isAngleStableOK := true, isAbsoluteAngleOK := true
    thrustEndFlag := false, angleChangeBuffer := [0, 0, 0, 0], maxAbsoluteAngle := 0
    stepCounter := 4, totalTorque := 0, angleChangePerDt2 := 0
    isTorqueStableOK := true, broken := false
    precMaxHeight := 0, maxHeight := 0, maxSpeed := 0.73134, maxDistance := 0
    maxFinDeflection := 0, keyPoints := kpInit }

/-- Iteration 4 of the heavy vertical launch, concretely. -/
theorem railH4 : flightStep ctxH stH3 = stH4 := by
  rw [railStepH stH3 3 2.673 rfl rfl (by norm_num [stH3]) (by norm_num [stH3])
      (by norm_num [stH3]) (by norm_num [stH3]) (by norm_num [stH3]) (by norm_num)
      rfl rfl rfl rfl rfl rfl rfl (by simp [stH3]) rfl rfl (le_of_eq rfl)
      (by rw [ctxH_facts.2.2.2.1]
          simp only [motorThrustData, String.reduceEq, reduceIte]
          norm_num) (by norm_num) (by norm_num)]
  simp only [stH3, stH4, sampH4, kpInit, List.cons_append, List.nil_append]
  norm_num [SimState.mk.injEq, Sample.mk.injEq]

/-- Sample pushed by iteration 5 of the heavy vertical launch. -/
def sampH5 : Sample :=
  { time := 0.08, physicsX := 0, height := -0.055296, vx := 0, vy := -0.8919
    speedMagnitude := 0.8919, omega := 0, torque := 0, angleChangePerDt2 := 0
    isParachuteEjected := false, isParachuteActive := false
    parachuteDeploymentProgress := 0, effectiveWindSpeed := 0, finDeflection := 0 }

/-- State after 5 iterations of the heavy vertical launch. -/
def stH5 : SimState :=
  { time := 0.10, x := 0, y := -0.055296, vx := 0, vy := -0.8919
    omega := 0, angularVelocity := 0, angularAcceleration := 0, prevOmega := 0
    data := [sampH1, sampH2, sampH3, sampH4, sampH5], isParachuteEjected := false, isParachuteActive := false
    parachuteDeploymentProgress := 0
    maxAngleChangePerDt2 := 0, isAngleStableOK := true, isAbsoluteAngleOK := true
    thrustEndFlag := false, angleChangeBuffer := [0, 0, 0, 0, 0], maxAbsoluteAngle := 0
    stepCounter := 5, totalTorque := 0, angleChangePerDt2 := 0
    isTorqueStableOK := true, broken := false
    precMaxHeight := 0, maxHeight := 0, maxSpeed := 0.8919, maxDistance := 0
    maxFinDeflection := 0, keyPoints := kpInit }

/-- Iteration 5 of the heavy vertical launch, concretely. -/
theorem railH5 : flightStep ctxH stH4 = stH5 := by
  rw [railStepH stH4 4 3.564 rfl rfl (by norm_num [stH4]) (by norm_num [stH4])
      (by norm_num [stH4]) (by norm_num [stH4]) (by norm_num [stH4]) (by norm_num)
      rfl rfl rfl rfl rfl rfl rfl (by simp [stH4]) rfl rfl (le_of_eq rfl)
      (by rw [ctxH_facts.2.2.2.1]
          simp only [motorThrustData, String.reduceEq, reduceIte]
          norm_num) (by norm_num) (by norm_num)]
  simp only [stH4, stH5, sampH5, kpInit, List.cons_append, List.nil_append]
  norm_num [SimState.mk.injEq, Sample.mk.injEq]

/-- The heavy vertical launch exits the simulation loop after exactly five
iterations: four in the 0.1 s grace window, and the guard then fails with the
rocket already below ground. -/
theorem loopGo_heavy : loopGo ctxH maxSimSteps (initState 0) = stH5 := by
  have hg0 : loopGuard (initState 0) := by
    unfold loopGuard
    exact ⟨Or.inl (by norm_num [initState]), by norm_num [initState]⟩
  have hg1 : loopGuard stH1 := by
    unfold loopGuard
    exact ⟨Or.inr (by norm_num [stH1]), by norm_num [stH1]⟩
  have hg2 : loopGuard stH2 := by
    unfold loopGuard
    exact ⟨Or.inr (by norm_num [stH2]), by norm_num [stH2]⟩
  have hg3 : loopGuard stH3 := by
    unfold loopGuard
    exact ⟨Or.inr (by norm_num [stH3]), by norm_num [stH3]⟩
  have hg4 : loopGuard stH4 := by
    unfold loopGuard
    exact ⟨Or.inr (by norm_num [stH4]), by norm_num [stH4]⟩
  have hg5 : ¬loopGuard stH5 := by
    intro h
    unfold loopGuard at h
    rcases h.1 with h' | h'
    · norm_num [stH5] at h'
    · norm_num [stH5] at h'
  rw [show maxSimSteps = 999 + 1 from rfl]
  rw [loopGo, if_neg (show ¬((initState 0).broken = true) from Bool.false_ne_true),
    if_pos hg0, railH1]
  rw [show (999 : ℕ) = 998 + 1 from rfl]
  rw [loopGo, if_neg (show ¬(stH1.broken = true) from Bool.false_ne_true),
    if_pos hg1, railH2]
  rw [show (998 : ℕ) = 997 + 1 from rfl]
  rw [loopGo, if_neg (show ¬(stH2.broken = true) from Bool.false_ne_true),
    if_pos hg2, railH3]
  rw [show (997 : ℕ) = 996 + 1 from rfl]
  rw [loopGo, if_neg (show ¬(stH3.broken = true) from Bool.false_ne_true),
    if_pos hg3, railH4]
  rw [show (996 : ℕ) = 995 + 1 from rfl]
  rw [loopGo, if_neg (show ¬(stH4.broken = true) from Bool.false_ne_true),
    if_pos hg4, railH5]
  rw [show (995 : ℕ) = 994 + 1 from rfl]
  rw [loopGo, if_neg (show ¬(stH5.broken = true) from Bool.false_ne_true), if_neg hg5]

/-- C2 counterexample: a 2 kg rocket on the stock A8-3 motor (thrust max
9.8 N against a 19.62 N weight) launched vertically with zero wind sinks
during the 0.1 s grace window.  calculateFlightPath returns a last sample
with height -0.055296 m -- strictly below ground, not clamped to 0 -- while
isTorqueStableOK is still true, refuting the claimed disjunction. -/
theorem flight_last_height_not_clamped_cex :
    (calculateFlightPath heavyParams 0 0 WindProfile.uniform cfgOff).data.getLast?
      = some sampH5
    ∧ sampH5.height < 0
    ∧ (calculateFlightPath heavyParams 0 0
        WindProfile.uniform cfgOff).angleStability.isTorqueStableOK = true := by
  have e : calculateFlightPath heavyParams 0 0 WindProfile.uniform cfgOff
      = mkResult ctxH stH5 := by
    show mkResult ctxH (loopGo ctxH maxSimSteps (initState 0)) = mkResult ctxH stH5
    rw [loopGo_heavy]
  refine ⟨?_, ?_, ?_⟩
  · rw [e]
    rfl
  · norm_num [sampH5]
  · rw [e]
    rfl
